import Mathlib

set_option maxRecDepth 200000

set_option maxHeartbeats 1000000

/-!
Verification development for the RNAseqScripts repository: three Python
command-line utilities (`bbduk_array.py`, `hisat2_array.py`,
`featureCounts_path.py`) that render a Slurm job script from parameters and
submit it with `sbatch`.  The Python sources are shallowly embedded below:
string formatting becomes Lean `String` concatenation, the filesystem and
the `sbatch` exit status become explicit inputs, `sys.exit` and uncaught
exceptions become explicit result constructors, and the ambient clock used
by `featureCounts_path.py` becomes an explicit `now` argument.
-/

/-- A single-quote character as a string (used when rebuilding Python error
text and the awk program embedded in the featureCounts template). -/
def squot : String := String.singleton (Char.ofNat 39)

/-- The filesystem as seen by the scripts: which paths are existing files
and which are existing directories.  `Path(p).is_file()` is `isFile`,
`Path(p).exists()` is `pathExists`. -/
structure FS where
  files : List String
  dirs : List String
deriving DecidableEq

def FS.isFile (fs : FS) (p : String) : Bool := fs.files.contains p

def FS.pathExists (fs : FS) (p : String) : Bool :=
  fs.files.contains p || fs.dirs.contains p

/-- Observable effects and final status of one whole invocation of a
script: lines printed to stdout, directories created, files written
(path, content), argv lists passed to `subprocess.run`, the `sys.exit`
message if any, whether an uncaught exception escaped, and the process
exit code. -/
structure Outcome where
  printed : List String
  mkdirs : List String
  written : List (String × String)
  sbatchCalls : List (List String)
  exitMsg : Option String
  raised : Bool
  exitCode : Nat
deriving DecidableEq

/-- Result of running one of the `generate_slurm_script` functions, which
in `hisat2_array.py` and `featureCounts_path.py` print, create directories
and can call `sys.exit` or raise. -/
inductive GenResult where
  | ok (printed : List String) (mkdirs : List String) (script : String)
  | exited (printed : List String) (mkdirs : List String) (msg : String)
  | raised (printed : List String) (mkdirs : List String)
deriving DecidableEq

def GenResult.script? : GenResult → Option String
  | .ok _ _ s => some s
  | _ => none

def GenResult.isRaised : GenResult → Bool
  | .raised _ _ => true
  | _ => false

/-- Python `str.upper()`, character by character (the scripts only ever
compare the result against ASCII strings). -/
def pyUpper (s : String) : String := ⟨s.data.map Char.toUpper⟩

/-- Python f-string interpolation of a value that may be `None`:
`f"{x}"` renders `None` as the four letters `None`. -/
def pyNoneStr : Option String → String
  | none => "None"
  | some s => s

/-- Python `repr` of a list of strings, e.g. `['sbatch', 'x.sh']`. -/
def pyListRepr (cmd : List String) : String :=
  "[" ++ String.intercalate ", " (cmd.map (fun s => squot ++ s ++ squot)) ++ "]"

/-- Python `str(subprocess.CalledProcessError(returncode, cmd))` for a non-zero
exit status. -/
def cpeMsg (cmd : List String) (returncode : Nat) : String :=
  "Command " ++ squot ++ pyListRepr cmd ++ squot ++ " returned non-zero exit status "
    ++ toString returncode ++ "."

/-- The directory normalisation done at the top of both array renderers:
`if directory[-1] != "/": directory = directory + "/"`.  Indexing `[-1]`
raises `IndexError` on the empty string, which is `none` here. -/
def normalizeDir (directory : String) : Option String :=
  match directory.data.getLast? with
  | none => none
  | some c => if c ≠ '/' then some (directory ++ "/") else some directory

/-- The backquoted shell fragment embedded in every array filename
pattern: `` `printf "%03d" $SLURM_ARRAY_TASK_ID` ``. -/
def printfTag : String := "`printf \"%03d\" $SLURM_ARRAY_TASK_ID`"

/-- The `#SBATCH` header shared verbatim by the three templates. -/
def sbatchHeader (job_name queue : String) (nodes tasks : Int) (memory : String) : String :=
  "#!/bin/bash -x\n#SBATCH -p " ++ queue ++ "\n#SBATCH -N " ++ toString nodes ++
  "\n#SBATCH -n " ++ toString tasks ++ "\n#SBATCH -J " ++ job_name ++
  "\n#SBATCH --mem=" ++ memory ++ "\n#SBATCH -o jobs/" ++ job_name ++
  "-%A_%a.out\n#SBATCH -e jobs/" ++ job_name ++ "-%A_%a.err\n\n"

/-- The bbduk invocation line of the paired branch: the `#` mate wildcard
stands for the mate number in both the input and the output pattern. -/
def bbduk_paired_cmd (fb ext : String) : String :=
  "bbduk.sh in1=" ++ fb ++ "_#" ++ ext ++ " out=" ++ fb ++ "_#.bbdtrim" ++ ext ++
  " ref=adapters k=23 ktrim=r mink=11 qtrim=r trimq=14 minlength=20 hdist=1"

/-- The bbduk invocation line of the single-end branch. -/
def bbduk_single_cmd (fb ext : String) : String :=
  "bbduk.sh in=" ++ fb ++ ext ++ " out=" ++ fb ++ ".bbdtrim" ++ ext ++
  " ref=adapters k=23 ktrim=r mink=11 qtrim=r trimq=14 minlength=20 hdist=1"

/-- The body of `generate_slurm_script` in `bbduk_array.py` after the
directory has been normalised; the filebasename is the f-string
`{directory}{prefix}` followed by the printf fragment. -/
def bbduk_script (job_name queue : String) (nodes tasks : Int)
    (memory dir pref ext : String) (paired : Bool) : String :=
  let filebasename := dir ++ pref ++ printfTag
  let header := sbatchHeader job_name queue nodes tasks memory ++
    "module load BBMap/38.94-Java-1.8.0_201\n\n"
  if paired then
    header ++ bbduk_paired_cmd filebasename ext ++ "\n\n"
  else
    header ++ bbduk_single_cmd filebasename ext

/-- The function `generate_slurm_script` of `bbduk_array.py`.  It is `none` exactly when
the `directory[-1]` access raises. -/
def bbduk_generate_slurm_script (job_name queue : String) (nodes tasks : Int)
    (memory directory pref ext : String) (paired : Bool) : Option String :=
  (normalizeDir directory).map
    (fun dir => bbduk_script job_name queue nodes tasks memory dir pref ext paired)

/-- Messages printed by the `results` directory handling at the top of
`generate_slurm_script` in `hisat2_array.py`. -/
def hisat2ResultsPrints (fs : FS) : List String :=
  if ¬ fs.pathExists "results" then ["results/ directory created"]
  else ["results/ directory already exists."]

/-- Directories created by the same block. -/
def hisat2ResultsMkdirs (fs : FS) : List String :=
  (if ¬ fs.pathExists "results" then ["results"] else []) ++
  (if ¬ fs.pathExists "results/aligned_hisat" then ["results/aligned_hisat"] else [])

/-- The hisat2 invocation line of the paired branch (without the trailing
newlines); `strand` is the Python variable after the mapping, which is
`None` for unstranded and is interpolated as the text `None`. -/
def hisat2_paired_line (strand : Option String) (index dir fb suffix add_options : String) : String :=
  "hisat2 -q --phred33 --dta -t -p 4 " ++ pyNoneStr strand ++ " -x " ++ index ++
  " -1 " ++ dir ++ fb ++ "_1" ++ suffix ++ " -2 " ++ dir ++ fb ++ "_2" ++ suffix ++
  " -S results/aligned_hisat/" ++ fb ++ "/" ++ fb ++
  ".sam --summary-file results/aligned_hisat/" ++ fb ++ "/summary.txt --new-summary " ++
  add_options ++ " "

/-- The hisat2 invocation line of the single-end branch (without the
trailing newlines). -/
def hisat2_single_line (strand : Option String) (index dir fb suffix add_options : String) : String :=
  "hisat2 -q --phred33 --dta -t -p 4 " ++ pyNoneStr strand ++ " -x " ++ index ++
  " -U " ++ dir ++ fb ++ suffix ++
  " -S results/aligned_hisat/" ++ fb ++ "/" ++ fb ++
  ".sam --summary-file results/aligned_hisat/" ++ fb ++ "/summary.txt --new-summary " ++
  add_options

/-- The samtools/rm tail appended to every hisat2 script. -/
def hisat2_samtools_part (fb : String) : String :=
  "samtools view -b results/aligned_hisat/" ++ fb ++ "/" ++ fb ++
  ".sam -o results/aligned_hisat/" ++ fb ++ "/" ++ fb ++ ".bam\n\n" ++
  "samtools sort --write-index results/aligned_hisat/" ++ fb ++ "/" ++ fb ++
  ".bam -o results/aligned_hisat/" ++ fb ++ "/" ++ fb ++ ".sorted.bam\n\n" ++
  "rm results/aligned_hisat/" ++ fb ++ "/" ++ fb ++ ".sam\n" ++
  "rm results/aligned_hisat/" ++ fb ++ "/" ++ fb ++ ".bam\n\n"

/-- Full hisat2 script text for a given mapped strandness value, pairing
mode and normalised directory. -/
def hisat2_script (strand : Option String) (job_name queue : String) (nodes tasks : Int)
    (memory dir pref suffix index add_options : String) (paired : Bool) : String :=
  let filebasename := pref ++ printfTag
  sbatchHeader job_name queue nodes tasks memory ++
  "module load HISAT2/2.2.1-IGB-gcc-8.2.0-Python-3.7.2 \nmodule load SAMtools/1.17-IGB-gcc-8.2.0\n\n" ++
  "mkdir results/aligned_hisat/" ++ filebasename ++ "/\n\n" ++
  (if paired then hisat2_paired_line strand index dir filebasename suffix add_options
   else hisat2_single_line strand index dir filebasename suffix add_options) ++ "\n\n" ++
  hisat2_samtools_part filebasename

/-- The paired-mode strandness mapping table of `hisat2_array.py`, as a
function: `RF`/`FR` (case-insensitively) map to the corresponding flag,
anything else (in particular `none`/`unstranded`) to Python `None`. -/
def hisat2StrandTokPaired (strandness : String) : Option String :=
  if pyUpper strandness = "RF" then some "--rna-strandness RF"
  else if pyUpper strandness = "FR" then some "--rna-strandness FR"
  else none

/-- The single-end strandness mapping table of `hisat2_array.py`. -/
def hisat2StrandTokSingle (strandness : String) : Option String :=
  if pyUpper strandness = "R" then some "--rna-strandness R"
  else if pyUpper strandness = "F" then some "--rna-strandness F"
  else none

/-- The function `generate_slurm_script` of `hisat2_array.py`: index-file check, results
directory handling, directory normalisation, strandness mapping (with
`sys.exit` on an invalid value) and template assembly, in source order. -/
def hisat2_generate_slurm_script (fs : FS) (job_name queue : String) (nodes tasks : Int)
    (memory directory pref suffix : String) (paired : Bool)
    (index strandness add_options : String) : GenResult :=
  if ¬ fs.isFile (index ++ ".1.ht2") then
    .exited [] [] "Index file does not appear to exist. Check path and basename"
  else
    let pr := hisat2ResultsPrints fs
    let mk := hisat2ResultsMkdirs fs
    match normalizeDir directory with
    | none => .raised pr mk
    | some dir =>
      if paired then
        if pyUpper strandness = "RF" then
          .ok pr mk (hisat2_script (some "--rna-strandness RF") job_name queue nodes tasks
            memory dir pref suffix index add_options true)
        else if pyUpper strandness = "FR" then
          .ok pr mk (hisat2_script (some "--rna-strandness FR") job_name queue nodes tasks
            memory dir pref suffix index add_options true)
        else if pyUpper strandness = "NONE" ∨ pyUpper strandness = "UNSTRANDED" then
          .ok pr mk (hisat2_script none job_name queue nodes tasks
            memory dir pref suffix index add_options true)
        else
          .exited pr mk "Invalid strandness. Must be RF, FR or Unstranded for paired-end sequencing"
      else
        if pyUpper strandness = "R" then
          .ok pr mk (hisat2_script (some "--rna-strandness R") job_name queue nodes tasks
            memory dir pref suffix index add_options false)
        else if pyUpper strandness = "F" then
          .ok pr mk (hisat2_script (some "--rna-strandness F") job_name queue nodes tasks
            memory dir pref suffix index add_options false)
        else if pyUpper strandness = "NONE" ∨ pyUpper strandness = "UNSTRANDED" then
          .ok pr mk (hisat2_script none job_name queue nodes tasks
            memory dir pref suffix index add_options false)
        else
          .exited pr mk "Invalid strandness. Must be R, F or Unstranded for single-end sequencing"

/-- The featureCounts script text once the GTF check has passed; `outname`
here is the value after the `getcurrenttime` sentinel has been resolved. -/
def featureCounts_script (job_name queue : String) (nodes tasks : Int)
    (memory files outname : String) (pairedStr gtf strandness : String) : String :=
  sbatchHeader job_name queue nodes tasks memory ++
  "module load Subread/2.0.0-IGB-gcc-8.2.0 \n\nfilelist=$(ls -1 " ++ files ++
  " |awk " ++ squot ++ "ORS=\" \"\x7bprint\x7d" ++ squot ++ ")\n\n" ++
  "featureCounts -T 4" ++ pairedStr ++ " -t exon -g gene_id " ++ "-s " ++ strandness ++
  " -a " ++ gtf ++ " -o " ++ outname ++ " $filelist\n\n"

/-- The function `generate_slurm_script` of `featureCounts_path.py`; `now` is the
result of `datetime.now().strftime("%Y-%m-%d_%H.%M.%S")`, made explicit. -/
def featureCounts_generate_slurm_script (fs : FS) (now : String) (job_name queue : String)
    (nodes tasks : Int) (memory files outname gtf : String) (paired : Bool)
    (strandness : String) : GenResult :=
  if ¬ fs.isFile gtf then
    .exited [] [] "GTF file does not appear to exist. Check path"
  else
    let outname := if outname = "getcurrenttime"
      then "featCounts_" ++ now ++ ".csv" else outname
    let pairedStr := if paired then " -p -C" else ""
    .ok [] [] (featureCounts_script job_name queue nodes tasks memory files outname
      pairedStr gtf strandness)

/-- The function `submit_job` shared by `bbduk_array.py` and `hisat2_array.py`: pick
`./src/` when `./src` exists, write the script, run
`sbatch --array=... path`, print the outcome; a non-zero `sbatchExit`
raises `CalledProcessError`, which is caught and printed. -/
def submit_job (fs : FS) (sbatchExit : Nat) (slurm_script job_name array : String) : Outcome :=
  let srcpath := if fs.pathExists "./src" then "./src/" else "./"
  let path := srcpath ++ job_name ++ ".sh"
  let cmd := ["sbatch", "--array=" ++ array, path]
  if sbatchExit = 0 then
    ⟨["sbatch --array=" ++ array ++ " " ++ path, "Job submitted successfully!"],
      [], [(path, slurm_script)], [cmd], none, false, 0⟩
  else
    ⟨["Error submitting job: " ++ cpeMsg cmd sbatchExit],
      [], [(path, slurm_script)], [cmd], none, false, 0⟩

/-- The function `submit_job` of `featureCounts_path.py` (no `--array` argument). -/
def featureCounts_submit_job (fs : FS) (sbatchExit : Nat) (slurm_script job_name : String) : Outcome :=
  let srcpath := if fs.pathExists "./src" then "./src/" else "./"
  let path := srcpath ++ job_name ++ ".sh"
  let cmd := ["sbatch", path]
  if sbatchExit = 0 then
    ⟨["sbatch " ++ path, "Job submitted successfully!"],
      [], [(path, slurm_script)], [cmd], none, false, 0⟩
  else
    ⟨["Error submitting job: " ++ cpeMsg cmd sbatchExit],
      [], [(path, slurm_script)], [cmd], none, false, 0⟩

/-- The `__main__` flow of `bbduk_array.py` after argument parsing. -/
def bbduk_run (fs : FS) (sbatchExit : Nat) (job_name queue : String) (nodes tasks : Int)
    (memory directory pref ext : String) (paired : Bool) (array : String) : Outcome :=
  match bbduk_generate_slurm_script job_name queue nodes tasks memory directory pref ext paired with
  | none => ⟨[], [], [], [], none, true, 1⟩
  | some script => submit_job fs sbatchExit script job_name array

/-- The `__main__` flow of `hisat2_array.py` after argument parsing. -/
def hisat2_run (fs : FS) (sbatchExit : Nat) (job_name queue : String) (nodes tasks : Int)
    (memory directory pref suffix : String) (paired : Bool)
    (index strandness add_options array : String) : Outcome :=
  match hisat2_generate_slurm_script fs job_name queue nodes tasks memory directory pref
      suffix paired index strandness add_options with
  | .exited p m msg => ⟨p, m, [], [], some msg, false, 1⟩
  | .raised p m => ⟨p, m, [], [], none, true, 1⟩
  | .ok p m script =>
    let o := submit_job fs sbatchExit script job_name array
    ⟨p ++ o.printed, m ++ o.mkdirs, o.written, o.sbatchCalls, o.exitMsg, o.raised, o.exitCode⟩

/-- The `__main__` flow of `featureCounts_path.py` after argument parsing. -/
def featureCounts_run (fs : FS) (now : String) (sbatchExit : Nat) (job_name queue : String)
    (nodes tasks : Int) (memory files outname gtf : String) (paired : Bool)
    (strandness : String) : Outcome :=
  match featureCounts_generate_slurm_script fs now job_name queue nodes tasks memory files
      outname gtf paired strandness with
  | .exited _ _ msg => ⟨[], [], [], [], some msg, false, 1⟩
  | .raised _ _ => ⟨[], [], [], [], none, true, 1⟩
  | .ok _ _ script => featureCounts_submit_job fs sbatchExit script job_name


/-! ## Line and substring analysis machinery -/

/-- Split a character list at newline characters (Python
`str.split("\n")` on the underlying characters). -/
def splitNl : List Char → List (List Char)
  | [] => [[]]
  | c :: cs =>
    if c = '\n' then [] :: splitNl cs
    else
      match splitNl cs with
      | [] => [[c]]
      | l :: ls => (c :: l) :: ls

/-- Prepend a newline-free chunk onto the first line of a split. -/
def consHead (a : List Char) : List (List Char) → List (List Char)
  | [] => [a]
  | h :: t => (a ++ h) :: t

/-- The newline string, kept opaque while rewriting templates. -/
def nlS : String := "\n"

/-- Whether character list `l` starts with the string `p`. -/
def startsWithL (p : String) (l : List Char) : Bool := decide (p.data <+: l)

/-- Adjacent character pairs of a list. -/
def adjPairs : List Char → List (Char × Char)
  | a :: b :: rest => (a, b) :: adjPairs (b :: rest)
  | _ => []

/-- Predicate: `l` neither contains the adjacent pair `(c, d)` nor starts with `d`;
this composes over concatenation and rules out substrings containing the
pair `(c, d)`. -/
def segOk (c d : Char) (l : List Char) : Prop :=
  (c, d) ∉ adjPairs l ∧ l.head? ≠ some d

instance (c d : Char) (l : List Char) : Decidable (segOk c d l) :=
  inferInstanceAs (Decidable ((c, d) ∉ adjPairs l ∧ l.head? ≠ some d))

/-! Named template pieces (each newline-free), used to analyse the line
structure of the rendered scripts.  Each is a verbatim fragment of one of
the three templates. -/

def pcShebang : String := "#!/bin/bash -x"

def pcQ : String := "#SBATCH -p "

def pcNodes : String := "#SBATCH -N "

def pcTasks : String := "#SBATCH -n "

def pcJob : String := "#SBATCH -J "

def pcMem : String := "#SBATCH --mem="

def pcOut : String := "#SBATCH -o jobs/"

def pcOutSuf : String := "-%A_%a.out"

def pcErr : String := "#SBATCH -e jobs/"

def pcErrSuf : String := "-%A_%a.err"

def pcModBB : String := "module load BBMap/38.94-Java-1.8.0_201"

def pcIn1 : String := "bbduk.sh in1="

def pcIn : String := "bbduk.sh in="

def pcHashE : String := "_#"

def pcOutEq : String := " out="

def pcHashTrim : String := "_#.bbdtrim"

def pcTrim : String := ".bbdtrim"

def pcRef : String := " ref=adapters k=23 ktrim=r mink=11 qtrim=r trimq=14 minlength=20 hdist=1"

def pcModH : String := "module load HISAT2/2.2.1-IGB-gcc-8.2.0-Python-3.7.2 "

def pcModS : String := "module load SAMtools/1.17-IGB-gcc-8.2.0"

def pcMkdir : String := "mkdir results/aligned_hisat/"

def pcSl : String := "/"

def pcHisat : String := "hisat2 -q --phred33 --dta -t -p 4 "

def pcX : String := " -x "

def pcU : String := " -U "

def pcS : String := " -S results/aligned_hisat/"

def pcSam : String := ".sam --summary-file results/aligned_hisat/"

def pcSum : String := "/summary.txt --new-summary "

def pcView : String := "samtools view -b results/aligned_hisat/"

def pcSamO : String := ".sam -o results/aligned_hisat/"

def pcBam : String := ".bam"

def pcSort : String := "samtools sort --write-index results/aligned_hisat/"

def pcBamO : String := ".bam -o results/aligned_hisat/"

def pcSorted : String := ".sorted.bam"

def pcRm : String := "rm results/aligned_hisat/"

def pcSamE : String := ".sam"

def pcM1 : String := " -1 "

def pcM2 : String := " -2 "

def pcU1 : String := "_1"

def pcU2 : String := "_2"

def pcSp : String := " "

/-! ## General lemmas -/

/-- A non-empty directory string always normalises successfully. -/
theorem normalizeDir_isSome (d : String) (hd : d.data ≠ []) :
    ∃ nd, normalizeDir d = some nd := by
  have h1 : d.data.getLast?.isSome := List.getLast?_isSome.mpr hd
  obtain ⟨c, hc⟩ := Option.isSome_iff_exists.mp h1
  unfold normalizeDir
  rw [hc]
  by_cases h2 : c = '/'
  · exact ⟨d, by simp [h2]⟩
  · exact ⟨d ++ "/", by simp [h2]⟩

/-! ## Claims -/

/-- C4: an invocation whose HISAT2 index (basename plus `.1.ht2`) or
featureCounts GTF path is not an existing file terminates with the
descriptive `sys.exit` message, before any script file is written and
before `sbatch` is invoked. -/
theorem c4_missing_input_aborts (fs fs2 : FS) (e e2 : Nat)
    (jn q m dir p sfx idx strand add arr : String) (N n : Int) (paired : Bool)
    (now jn2 q2 m2 files outname gtf strand2 : String) (N2 n2 : Int) (paired2 : Bool)
    (h1 : fs.isFile (idx ++ ".1.ht2") = false) (h2 : fs2.isFile gtf = false) :
    hisat2_run fs e jn q N n m dir p sfx paired idx strand add arr =
      ⟨[], [], [], [], some "Index file does not appear to exist. Check path and basename",
        false, 1⟩ ∧
    featureCounts_run fs2 now e2 jn2 q2 N2 n2 m2 files outname gtf paired2 strand2 =
      ⟨[], [], [], [], some "GTF file does not appear to exist. Check path", false, 1⟩ := by
  constructor
  · simp [hisat2_run, hisat2_generate_slurm_script, h1]
  · simp [featureCounts_run, featureCounts_generate_slurm_script, h2]

/-- C4 witness at concrete inputs (empty filesystem, so both files are
missing). -/
theorem c4_missing_input_aborts_witness :
    hisat2_run ⟨[], []⟩ 0 "hisat2" "lowmem" 1 4 "4GB" "/data/" "sample" ".bbdtrim.fastq.gz"
        true "idx" "RF" "" "1-3" =
      ⟨[], [], [], [], some "Index file does not appear to exist. Check path and basename",
        false, 1⟩ ∧
    featureCounts_run ⟨[], []⟩ "2024-05-01_10.00.00" 0 "featureCounts" "lowmem" 1 4 "3GB"
        "results/*.bam" "getcurrenttime" "genes.gtf" true "2" =
      ⟨[], [], [], [], some "GTF file does not appear to exist. Check path", false, 1⟩ :=
  c4_missing_input_aborts ⟨[], []⟩ ⟨[], []⟩ 0 0 "hisat2" "lowmem" "4GB" "/data/" "sample"
    ".bbdtrim.fastq.gz" "idx" "RF" "" "1-3" 1 4 true "2024-05-01_10.00.00" "featureCounts"
    "lowmem" "3GB" "results/*.bam" "getcurrenttime" "genes.gtf" "2" 1 4 true
    (by decide) (by decide)

/-- C6: every submission writes the rendered text verbatim to
`<srcdir><job_name>.sh` with `<srcdir>` being `./src/` when `./src` exists
and `./` otherwise, and passes that same path to `sbatch`. -/
theorem c6_submit_writes_verbatim (fs : FS) (e : Nat) (script jn arr : String) :
    (submit_job fs e script jn arr).written =
      [((if fs.pathExists "./src" then "./src/" else "./") ++ jn ++ ".sh", script)] ∧
    (submit_job fs e script jn arr).sbatchCalls =
      [["sbatch", "--array=" ++ arr,
        (if fs.pathExists "./src" then "./src/" else "./") ++ jn ++ ".sh"]] ∧
    (featureCounts_submit_job fs e script jn).written =
      [((if fs.pathExists "./src" then "./src/" else "./") ++ jn ++ ".sh", script)] ∧
    (featureCounts_submit_job fs e script jn).sbatchCalls =
      [["sbatch", (if fs.pathExists "./src" then "./src/" else "./") ++ jn ++ ".sh"]] := by
  unfold submit_job featureCounts_submit_job
  by_cases he : e = 0 <;> simp [he]

/-- C8: the spec's end-to-end bbduk scenario: directory `/data/`, prefix
`sample`, array `1-3`, defaults otherwise.  The written script embeds the
zero-padded `printf "%03d"` task-id pattern right after the prefix, and
`sbatch` receives `--array=1-3`. -/
theorem c8_bbduk_end_to_end :
    (bbduk_run ⟨[], []⟩ 0 "bbduk" "lowmem" 1 1 "1GB" "/data/" "sample" ".fastq.gz" true
      "1-3").sbatchCalls = [["sbatch", "--array=1-3", "./bbduk.sh"]] ∧
    ((bbduk_run ⟨[], []⟩ 0 "bbduk" "lowmem" 1 1 "1GB" "/data/" "sample" ".fastq.gz" true
      "1-3").written.map Prod.fst) = ["./bbduk.sh"] ∧
    ((bbduk_run ⟨[], []⟩ 0 "bbduk" "lowmem" 1 1 "1GB" "/data/" "sample" ".fastq.gz" true
      "1-3").written.all
        (fun w => decide (("/data/sample" ++ printfTag).data <:+: w.2.data))) = true := by
  decide

/-- C1 (code bug evidence): with a validated index and paired strandness
`none`, the Python code sets the variable to `None` and then interpolates
it into the f-string, so the hisat2 command line contains the stray token
`None` between `-p 4` and `-x` instead of omitting the flag. -/
theorem c1_unstranded_renders_none_token :
    hisat2_generate_slurm_script ⟨["idx.1.ht2"], []⟩ "hisat2" "lowmem" 1 4 "4GB" "/data/"
        "sample" ".bbdtrim.fastq.gz" true "idx" "none" "" =
      .ok (hisat2ResultsPrints ⟨["idx.1.ht2"], []⟩) (hisat2ResultsMkdirs ⟨["idx.1.ht2"], []⟩)
        (hisat2_script none "hisat2" "lowmem" 1 4 "4GB" "/data/" "sample"
          ".bbdtrim.fastq.gz" "idx" "" true) ∧
    ("-p 4 None -x idx".data <:+:
      (hisat2_script none "hisat2" "lowmem" 1 4 "4GB" "/data/" "sample"
        ".bbdtrim.fastq.gz" "idx" "" true).data) := by
  constructor
  · simp [hisat2_generate_slurm_script, normalizeDir, hisat2ResultsPrints,
      hisat2ResultsMkdirs, pyUpper]
    decide
  · refine ⟨(sbatchHeader "hisat2" "lowmem" 1 4 "4GB" ++
      "module load HISAT2/2.2.1-IGB-gcc-8.2.0-Python-3.7.2 \nmodule load SAMtools/1.17-IGB-gcc-8.2.0\n\n" ++
      "mkdir results/aligned_hisat/" ++ ("sample" ++ printfTag) ++ "/\n\n" ++
      "hisat2 -q --phred33 --dta -t ").data,
      (" -1 " ++ "/data/" ++ ("sample" ++ printfTag) ++ "_1" ++ ".bbdtrim.fastq.gz" ++
       " -2 " ++ "/data/" ++ ("sample" ++ printfTag) ++ "_2" ++ ".bbdtrim.fastq.gz" ++
       " -S results/aligned_hisat/" ++ ("sample" ++ printfTag) ++ "/" ++
       ("sample" ++ printfTag) ++
       ".sam --summary-file results/aligned_hisat/" ++ ("sample" ++ printfTag) ++
       "/summary.txt --new-summary " ++ "" ++ " " ++ "\n\n" ++
       hisat2_samtools_part ("sample" ++ printfTag)).data, ?_⟩
    simp [hisat2_script, hisat2_paired_line, pyNoneStr, String.data_append,
      List.append_assoc]

/-- C2 (counterexample): two featureCounts renders with identical Job
Parameters but performed at two different clock instants differ when the
output name is the default `getcurrenttime` sentinel, because the script
embeds the timestamp. -/
theorem c2_default_outname_counterexample :
    featureCounts_generate_slurm_script ⟨["genes.gtf"], []⟩ "2024-05-01_10.00.00"
      "featureCounts" "lowmem" 1 4 "3GB" "results/aligned_hisat/sample_*/*.sorted.bam"
      "getcurrenttime" "genes.gtf" true "2" ≠
    featureCounts_generate_slurm_script ⟨["genes.gtf"], []⟩ "2024-05-01_10.00.01"
      "featureCounts" "lowmem" 1 4 "3GB" "results/aligned_hisat/sample_*/*.sorted.bam"
      "getcurrenttime" "genes.gtf" true "2" := by
  decide

/-- C2 (amended): rendering is a function of the Job Parameters, the
filesystem and the clock; for featureCounts with any explicit (non-default)
output name the render is independent of the clock, so renders at any two
times are byte-identical. -/
theorem c2_render_deterministic (fs : FS) (now now2 jn q m files outname gtf strand : String)
    (N n : Int) (paired : Bool) (h : outname ≠ "getcurrenttime") :
    featureCounts_generate_slurm_script fs now jn q N n m files outname gtf paired strand =
    featureCounts_generate_slurm_script fs now2 jn q N n m files outname gtf paired strand := by
  unfold featureCounts_generate_slurm_script
  simp [h]

/-- C2 witness: an explicit output name at two different clock instants. -/
theorem c2_render_deterministic_witness :
    featureCounts_generate_slurm_script ⟨["genes.gtf"], []⟩ "2024-05-01_10.00.00"
      "featureCounts" "lowmem" 1 4 "3GB" "results/*.bam" "counts.csv" "genes.gtf" true "2" =
    featureCounts_generate_slurm_script ⟨["genes.gtf"], []⟩ "2024-05-01_10.00.01"
      "featureCounts" "lowmem" 1 4 "3GB" "results/*.bam" "counts.csv" "genes.gtf" true "2" :=
  c2_render_deterministic ⟨["genes.gtf"], []⟩ "2024-05-01_10.00.00" "2024-05-01_10.00.01"
    "featureCounts" "lowmem" "3GB" "results/*.bam" "counts.csv" "genes.gtf" "2" 1 4 true
    (by decide)

/-- C3 (counterexample): when `sbatch` fails (exit status 1) the
`CalledProcessError` is caught and printed, and the whole process then
finishes normally: its exit status is 0, not non-zero. -/
theorem c3_exit_status_counterexample :
    (bbduk_run ⟨[], []⟩ 1 "bbduk" "lowmem" 1 1 "1GB" "/data/" "sample" ".fastq.gz" true
      "1-3").exitCode = 0 ∧
    (bbduk_run ⟨[], []⟩ 1 "bbduk" "lowmem" 1 1 "1GB" "/data/" "sample" ".fastq.gz" true
      "1-3").raised = false := by
  decide

/-- C3 (amended): on a non-zero `sbatch` exit status both submitters catch
the error and print the captured `CalledProcessError` detail (no raw stack
trace escapes), and the process exits with status 0. -/
theorem c3_submit_error_reported (fs : FS) (e : Nat) (script jn arr : String) (h : e ≠ 0) :
    (submit_job fs e script jn arr).printed =
      ["Error submitting job: " ++ cpeMsg ["sbatch", "--array=" ++ arr,
        (if fs.pathExists "./src" then "./src/" else "./") ++ jn ++ ".sh"] e] ∧
    (submit_job fs e script jn arr).raised = false ∧
    (submit_job fs e script jn arr).exitMsg = none ∧
    (submit_job fs e script jn arr).exitCode = 0 ∧
    (featureCounts_submit_job fs e script jn).printed =
      ["Error submitting job: " ++ cpeMsg ["sbatch",
        (if fs.pathExists "./src" then "./src/" else "./") ++ jn ++ ".sh"] e] ∧
    (featureCounts_submit_job fs e script jn).raised = false ∧
    (featureCounts_submit_job fs e script jn).exitCode = 0 := by
  unfold submit_job featureCounts_submit_job
  simp [h]

/-- C3 witness at a concrete failing submission. -/
theorem c3_submit_error_reported_witness :
    (submit_job ⟨[], []⟩ 1 "#!/bin/bash -x" "bbduk" "1-3").printed =
      ["Error submitting job: " ++ cpeMsg ["sbatch", "--array=" ++ "1-3",
        (if FS.pathExists ⟨[], []⟩ "./src" then "./src/" else "./") ++ "bbduk" ++ ".sh"] 1] ∧
    (submit_job ⟨[], []⟩ 1 "#!/bin/bash -x" "bbduk" "1-3").raised = false ∧
    (submit_job ⟨[], []⟩ 1 "#!/bin/bash -x" "bbduk" "1-3").exitMsg = none ∧
    (submit_job ⟨[], []⟩ 1 "#!/bin/bash -x" "bbduk" "1-3").exitCode = 0 ∧
    (featureCounts_submit_job ⟨[], []⟩ 1 "#!/bin/bash -x" "bbduk").printed =
      ["Error submitting job: " ++ cpeMsg ["sbatch",
        (if FS.pathExists ⟨[], []⟩ "./src" then "./src/" else "./") ++ "bbduk" ++ ".sh"] 1] ∧
    (featureCounts_submit_job ⟨[], []⟩ 1 "#!/bin/bash -x" "bbduk").raised = false ∧
    (featureCounts_submit_job ⟨[], []⟩ 1 "#!/bin/bash -x" "bbduk").exitCode = 0 :=
  c3_submit_error_reported ⟨[], []⟩ 1 "#!/bin/bash -x" "bbduk" "1-3" (by decide)

/-- C5 (counterexample): the hisat2 renderer is not free of validation and
termination: on a missing index file `generate_slurm_script` itself calls
`sys.exit` during rendering. -/
theorem c5_renderer_terminates_counterexample :
    hisat2_generate_slurm_script ⟨[], []⟩ "hisat2" "lowmem" 1 4 "4GB" "/data/" "sample"
      ".bbdtrim.fastq.gz" true "missing" "RF" "" =
    .exited [] [] "Index file does not appear to exist. Check path and basename" := by
  decide

/-- C5 (amended): the bbduk renderer is a pure total function of its
parameters whenever the directory is non-empty; the hisat2 and
featureCounts renderers instead validate inside rendering: hisat2 exits on
an invalid paired strandness (after reading and possibly creating
directories), and featureCounts exits on a missing GTF. -/
theorem c5_renderer_contract (jn q m dir p ext2 : String) (N n : Int) (paired : Bool)
    (fs : FS) (sfx idx strand add : String)
    (fs2 : FS) (now jn2 q2 m2 files outname gtf strand2 : String) (N2 n2 : Int)
    (paired2 : Bool)
    (hdir : dir.data ≠ [])
    (hidx : fs.isFile (idx ++ ".1.ht2") = true)
    (h1 : pyUpper strand ≠ "RF") (h2 : pyUpper strand ≠ "FR")
    (h3 : pyUpper strand ≠ "NONE") (h4 : pyUpper strand ≠ "UNSTRANDED")
    (hgtf : fs2.isFile gtf = false) :
    (bbduk_generate_slurm_script jn q N n m dir p ext2 paired).isSome = true ∧
    hisat2_generate_slurm_script fs jn q N n m dir p sfx true idx strand add =
      .exited (hisat2ResultsPrints fs) (hisat2ResultsMkdirs fs)
        "Invalid strandness. Must be RF, FR or Unstranded for paired-end sequencing" ∧
    featureCounts_generate_slurm_script fs2 now jn2 q2 N2 n2 m2 files outname gtf paired2
        strand2 =
      .exited [] [] "GTF file does not appear to exist. Check path" := by
  obtain ⟨nd, hnd⟩ := normalizeDir_isSome dir hdir
  refine ⟨?_, ?_, ?_⟩
  · simp [bbduk_generate_slurm_script, hnd]
  · simp [hisat2_generate_slurm_script, hidx, hnd, h1, h2, h3, h4]
  · simp [featureCounts_generate_slurm_script, hgtf]

/-- C5 witness at concrete inputs (strandness `XY` is invalid). -/
theorem c5_renderer_contract_witness :
    (bbduk_generate_slurm_script "bbduk" "lowmem" 1 1 "1GB" "/data/" "sample" ".fastq.gz"
      true).isSome = true ∧
    hisat2_generate_slurm_script ⟨["idx.1.ht2"], []⟩ "bbduk" "lowmem" 1 1 "1GB" "/data/"
        "sample" ".bbdtrim.fastq.gz" true "idx" "XY" "" =
      .exited (hisat2ResultsPrints ⟨["idx.1.ht2"], []⟩) (hisat2ResultsMkdirs ⟨["idx.1.ht2"], []⟩)
        "Invalid strandness. Must be RF, FR or Unstranded for paired-end sequencing" ∧
    featureCounts_generate_slurm_script ⟨[], []⟩ "2024-05-01_10.00.00" "featureCounts"
        "lowmem" 1 4 "3GB" "results/*.bam" "getcurrenttime" "genes.gtf" true "2" =
      .exited [] [] "GTF file does not appear to exist. Check path" :=
  c5_renderer_contract "bbduk" "lowmem" "1GB" "/data/" "sample" ".fastq.gz" 1 1 true
    ⟨["idx.1.ht2"], []⟩ ".bbdtrim.fastq.gz" "idx" "XY" ""
    ⟨[], []⟩ "2024-05-01_10.00.00" "featureCounts" "lowmem" "3GB" "results/*.bam"
    "getcurrenttime" "genes.gtf" "2" 1 4 true
    (by decide) (by decide) (by decide) (by decide) (by decide) (by decide) (by decide)

/-- C9: both array renderers normalise a non-empty directory to end in a
slash, appending one only when the last character is not already `/`; on
the empty string the `directory[-1]` access has no valid index, so the
bbduk renderer raises (is `none`) and the hisat2 renderer raises even with
a valid index. -/
theorem c9_directory_normalization :
    (∀ d : String, d.data ≠ [] →
      normalizeDir d = some (if d.data.getLast? = some '/' then d else d ++ "/") ∧
      (normalizeDir d).map (fun nd => nd.data.getLast?) = some (some '/')) ∧
    normalizeDir "" = none ∧
    (∀ (jn q m p ext2 : String) (N n : Int) (paired : Bool),
      bbduk_generate_slurm_script jn q N n m "" p ext2 paired = none) ∧
    (∀ (fs : FS) (jn q m p sfx idx strand add : String) (N n : Int) (paired : Bool),
      fs.isFile (idx ++ ".1.ht2") = true →
      (hisat2_generate_slurm_script fs jn q N n m "" p sfx paired idx strand add).isRaised
        = true) := by
  refine ⟨?_, by decide, ?_, ?_⟩
  · intro d hd
    have h1 : d.data.getLast?.isSome := List.getLast?_isSome.mpr hd
    obtain ⟨c, hc⟩ := Option.isSome_iff_exists.mp h1
    unfold normalizeDir
    rw [hc]
    by_cases h2 : c = '/'
    · subst h2
      simp [hc]
    · have h4 : (some c : Option Char) ≠ some '/' := by simp [h2]
      have h5 : (d ++ "/").data.getLast? = some '/' := by
        rw [String.data_append, List.getLast?_append_of_ne_nil d.data (by decide)]
        decide
      simp [h2, h4, h5]
  · intro jn q m p ext2 N n paired
    simp [bbduk_generate_slurm_script, normalizeDir]
  · intro fs jn q m p sfx idx strand add N n paired hidx
    simp [hisat2_generate_slurm_script, hidx, normalizeDir, GenResult.isRaised]

/-- C9 witness: a directory without and a directory with a trailing slash,
plus the empty-directory hisat2 case. -/
theorem c9_directory_normalization_witness :
    (normalizeDir "/data" = some (if ("/data" : String).data.getLast? = some '/'
        then "/data" else "/data" ++ "/") ∧
      (normalizeDir "/data").map (fun nd => nd.data.getLast?) = some (some '/')) ∧
    (hisat2_generate_slurm_script ⟨["idx.1.ht2"], []⟩ "hisat2" "lowmem" 1 4 "4GB" "" "sample"
      ".fq" true "idx" "RF" "").isRaised = true :=
  ⟨c9_directory_normalization.1 "/data" (by decide),
   c9_directory_normalization.2.2.2 ⟨["idx.1.ht2"], []⟩ "hisat2" "lowmem" "4GB" "sample"
     ".fq" "idx" "RF" "" 1 4 true (by decide)⟩

/-- C10: the featureCounts renderer never validates the strandness option:
given an existing GTF it succeeds for every strandness string whatsoever
and the featureCounts command line carries `-s ` followed by exactly that
string (then ` -a `). -/
theorem c10_strandness_passthrough (fs : FS) (now jn q m files outname gtf strand : String)
    (N n : Int) (paired : Bool) (h : fs.isFile gtf = true) :
    featureCounts_generate_slurm_script fs now jn q N n m files outname gtf paired strand =
      .ok [] [] (featureCounts_script jn q N n m files
        (if outname = "getcurrenttime" then "featCounts_" ++ now ++ ".csv" else outname)
        (if paired then " -p -C" else "") gtf strand) ∧
    (∀ outname2 pairedStr2 : String,
      ("-s " ++ strand ++ " -a ").data <:+:
        (featureCounts_script jn q N n m files outname2 pairedStr2 gtf strand).data) := by
  constructor
  · simp [featureCounts_generate_slurm_script, h]
  · intro o2 p2
    refine ⟨(sbatchHeader jn q N n m ++
      "module load Subread/2.0.0-IGB-gcc-8.2.0 \n\nfilelist=$(ls -1 " ++ files ++
      " |awk " ++ squot ++ "ORS=\" \"\x7bprint\x7d" ++ squot ++ ")\n\nfeatureCounts -T 4" ++
      p2 ++ " -t exon -g gene_id ").data,
      (gtf ++ " -o " ++ o2 ++ " $filelist\n\n").data, ?_⟩
    simp [featureCounts_script, String.data_append, List.append_assoc]

/-- C10 witness: an out-of-table strandness string `7` with an existing
GTF. -/
theorem c10_strandness_passthrough_witness :
    featureCounts_generate_slurm_script ⟨["genes.gtf"], []⟩ "2024-05-01_10.00.00"
        "featureCounts" "lowmem" 1 4 "3GB" "results/*.bam" "counts.csv" "genes.gtf" true
        "7" =
      .ok [] [] (featureCounts_script "featureCounts" "lowmem" 1 4 "3GB" "results/*.bam"
        (if ("counts.csv" : String) = "getcurrenttime"
          then "featCounts_" ++ "2024-05-01_10.00.00" ++ ".csv" else "counts.csv")
        (if (true : Bool) then " -p -C" else "") "genes.gtf" "7") ∧
    (∀ outname2 pairedStr2 : String,
      ("-s " ++ "7" ++ " -a ").data <:+:
        (featureCounts_script "featureCounts" "lowmem" 1 4 "3GB" "results/*.bam" outname2
          pairedStr2 "genes.gtf" "7").data) :=
  c10_strandness_passthrough ⟨["genes.gtf"], []⟩ "2024-05-01_10.00.00" "featureCounts"
    "lowmem" "3GB" "results/*.bam" "counts.csv" "genes.gtf" "7" 1 4 true (by decide)

/-! ## Lemmas about the machinery -/

theorem splitNl_ne_nil (l : List Char) : splitNl l ≠ [] := by
  induction l with
  | nil => simp [splitNl]
  | cons c cs ih =>
    simp only [splitNl]
    split
    · simp
    · cases h : splitNl cs <;> simp

theorem splitNl_append (a : List Char) (h : '\n' ∉ a) :
    ∀ b, splitNl (a ++ b) = consHead a (splitNl b) := by
  induction a with
  | nil =>
    intro b
    cases hb : splitNl b with
    | nil => exact absurd hb (splitNl_ne_nil b)
    | cons x xs => simp [consHead, hb]
  | cons c cs ih =>
    intro b
    have hc : c ≠ '\n' := by intro hc; exact h (hc ▸ List.mem_cons_self c cs)
    have hcs : '\n' ∉ cs := fun hm => h (List.mem_cons_of_mem c hm)
    simp only [List.cons_append, splitNl, if_neg hc, List.append_eq]
    rw [ih hcs b]
    cases hb : splitNl b with
    | nil => exact absurd hb (splitNl_ne_nil b)
    | cons x xs => cases cs <;> simp [consHead]

theorem splitNl_nlS (b : List Char) : splitNl (nlS.data ++ b) = [] :: splitNl b := by
  have h : nlS.data = ['\n'] := by decide
  rw [h, List.singleton_append]
  simp [splitNl]

theorem splitNl_nlS_end : splitNl nlS.data = [[], []] := by decide

theorem splitNl_nil_eq : splitNl [] = [[]] := rfl

theorem splitNl_eq_single (a : List Char) (h : '\n' ∉ a) : splitNl a = [a] := by
  have h2 := splitNl_append a h []
  rw [List.append_nil] at h2
  rw [h2]
  simp [splitNl, consHead]

theorem head?_append_some {a : List Char} {c : Char} (h : a.head? = some c)
    (b : List Char) : (a ++ b).head? = some c := by
  cases a with
  | nil => simp at h
  | cons x xs => simpa using h

theorem startsWithL_eq_true {p : String} {l : List Char} (h : p.data <+: l) :
    startsWithL p l = true := by simp [startsWithL, h]

theorem startsWithL_eq_false {p : String} {l : List Char} (h : ¬ (p.data <+: l)) :
    startsWithL p l = false := by simp [startsWithL, h]

theorem startsWithL_ne_head (p : String) (l : List Char) (hp : p.data ≠ [])
    (h : p.data.head? ≠ l.head?) : startsWithL p l = false := by
  apply startsWithL_eq_false
  intro hpre
  obtain ⟨t, ht⟩ := hpre
  apply h
  rw [← ht]
  cases hp' : p.data with
  | nil => exact absurd hp' hp
  | cons c cs => simp

theorem startsWithL_false_append (p a : String) (rest : List Char) (hp : p.data ≠ [])
    (ha : a.data ≠ []) (h : p.data.head? ≠ a.data.head?) :
    startsWithL p (a.data ++ rest) = false := by
  apply startsWithL_ne_head p _ hp
  cases ha' : a.data with
  | nil => exact absurd ha' ha
  | cons c cs =>
    rw [ha'] at h
    simpa using h

theorem startsWithL_true_append (p a : String) (rest : List Char) (h : p.data <+: a.data) :
    startsWithL p (a.data ++ rest) = true :=
  startsWithL_eq_true (h.trans (List.prefix_append a.data rest))

theorem adjPairs_snd_mem {c d : Char} : ∀ {l : List Char}, (c, d) ∈ adjPairs l → d ∈ l := by
  intro l
  induction l with
  | nil => simp [adjPairs]
  | cons a t ih =>
    cases t with
    | nil => simp [adjPairs]
    | cons b rest =>
      intro h
      simp only [adjPairs, List.mem_cons, Prod.mk.injEq] at h
      rcases h with ⟨h1, h2⟩ | h
      · subst h2; simp
      · exact List.mem_cons_of_mem a (ih h)

theorem head?_ne_of_not_mem {d : Char} {l : List Char} (h : d ∉ l) : l.head? ≠ some d := by
  cases l with
  | nil => simp
  | cons x xs =>
    simp only [List.head?_cons, ne_eq, Option.some.injEq]
    intro he
    exact h (he ▸ List.mem_cons_self x xs)

theorem segOk_of_not_mem {c d : Char} {l : List Char} (h : d ∉ l) : segOk c d l :=
  ⟨fun hm => h (adjPairs_snd_mem hm), head?_ne_of_not_mem h⟩

theorem head?_append_ne {d : Char} {a b : List Char} (h1 : a.head? ≠ some d)
    (h2 : b.head? ≠ some d) : (a ++ b).head? ≠ some d := by
  cases a with
  | nil => simpa using h2
  | cons x xs => simpa using h1

theorem noPair_append {c d : Char} {a b : List Char} (ha : (c, d) ∉ adjPairs a)
    (hb : (c, d) ∉ adjPairs b) (hbd : b.head? ≠ some d) : (c, d) ∉ adjPairs (a ++ b) := by
  induction a with
  | nil => simpa using hb
  | cons x xs ih =>
    cases xs with
    | nil =>
      cases b with
      | nil => simp [adjPairs]
      | cons y ys =>
        simp only [List.singleton_append, adjPairs, List.mem_cons, Prod.mk.injEq, not_or]
        refine ⟨?_, ?_⟩
        · rintro ⟨h1, h2⟩
          exact hbd (by simp [h2])
        · exact fun hm => hb (by simpa [adjPairs] using hm)
    | cons y ys =>
      have ha1 : (c, d) ≠ (x, y) := by
        intro he
        exact ha (by simp [adjPairs, he.symm])
      have ha2 : (c, d) ∉ adjPairs (y :: ys) := by
        intro hm
        exact ha (by simp [adjPairs, hm])
      have := ih ha2
      simp only [List.cons_append, adjPairs] at this ⊢
      simp only [List.mem_cons, not_or]
      constructor
      · exact ha1
      · simpa [List.cons_append] using this

theorem segOk_append {c d : Char} {a b : List Char} (h1 : segOk c d a) (h2 : segOk c d b) :
    segOk c d (a ++ b) :=
  ⟨noPair_append h1.1 h2.1 h2.2, head?_append_ne h1.2 h2.2⟩

theorem adjPairs_cons_sub {p : Char × Char} {l : List Char} (x : Char)
    (h : p ∈ adjPairs l) : p ∈ adjPairs (x :: l) := by
  cases l with
  | nil => simp [adjPairs] at h
  | cons y ys =>
    simp only [adjPairs, List.mem_cons]
    exact Or.inr h

theorem adjPairs_mem_of_split (c d : Char) : ∀ (u v : List Char),
    (c, d) ∈ adjPairs (u ++ c :: d :: v) := by
  intro u v
  induction u with
  | nil => simp [adjPairs]
  | cons x xs ih => exact adjPairs_cons_sub x ih

theorem adjPairs_split_of_mem {c d : Char} : ∀ {l : List Char},
    (c, d) ∈ adjPairs l → ∃ u v, l = u ++ c :: d :: v := by
  intro l
  induction l with
  | nil => simp [adjPairs]
  | cons a t ih =>
    cases t with
    | nil => simp [adjPairs]
    | cons b rest =>
      intro h
      simp only [adjPairs, List.mem_cons, Prod.mk.injEq] at h
      rcases h with ⟨h1, h2⟩ | h
      · exact ⟨[], rest, by rw [h1, h2]; rfl⟩
      · obtain ⟨u, v, huv⟩ := ih h
        exact ⟨a :: u, v, by rw [List.cons_append, ← huv]⟩

theorem not_infix_of_segOk {c d : Char} (pat : String) (hpat : (c, d) ∈ adjPairs pat.data)
    {l : List Char} (h : segOk c d l) : ¬ (pat.data <:+: l) := by
  intro hinf
  obtain ⟨s, t, hst⟩ := hinf
  obtain ⟨u, v, hx⟩ := adjPairs_split_of_mem hpat
  apply h.1
  rw [← hst, hx]
  have : s ++ (u ++ c :: d :: v) ++ t = (s ++ u) ++ c :: d :: (v ++ t) := by
    simp [List.append_assoc]
  rw [this]
  exact adjPairs_mem_of_split c d (s ++ u) (v ++ t)

theorem not_infix_of_not_mem {l : List Char} (pat : String) (c : Char)
    (hc : c ∈ pat.data) (h : c ∉ l) : ¬ (pat.data <:+: l) :=
  fun hinf => h (hinf.subset hc)

/-- Newline-freeness of the paired bbduk command line. -/
theorem bbduk_paired_cmd_noNl (dir pre ext : String) (hd : '\n' ∉ dir.data)
    (hp : '\n' ∉ pre.data) (he : '\n' ∉ ext.data) :
    '\n' ∉ (bbduk_paired_cmd (dir ++ pre ++ printfTag) ext).data := by
  rw [show (bbduk_paired_cmd (dir ++ pre ++ printfTag) ext).data =
    pcIn1.data ++ (dir.data ++ (pre.data ++ (printfTag.data ++ (pcHashE.data ++ (ext.data ++
      (pcOutEq.data ++ (dir.data ++ (pre.data ++ (printfTag.data ++ (pcHashTrim.data ++
      (ext.data ++ pcRef.data))))))))))) from by
    simp [bbduk_paired_cmd, pcIn1, pcHashE, pcOutEq, pcHashTrim, pcRef, printfTag,
      String.data_append, List.append_assoc]]
  exact List.not_mem_append (by decide) (List.not_mem_append hd (List.not_mem_append hp
    (List.not_mem_append (by decide) (List.not_mem_append (by decide)
    (List.not_mem_append he (List.not_mem_append (by decide) (List.not_mem_append hd
    (List.not_mem_append hp (List.not_mem_append (by decide) (List.not_mem_append (by decide)
    (List.not_mem_append he (by decide))))))))))))

/-- Newline-freeness of the single-end bbduk command line. -/
theorem bbduk_single_cmd_noNl (dir pre ext : String) (hd : '\n' ∉ dir.data)
    (hp : '\n' ∉ pre.data) (he : '\n' ∉ ext.data) :
    '\n' ∉ (bbduk_single_cmd (dir ++ pre ++ printfTag) ext).data := by
  rw [show (bbduk_single_cmd (dir ++ pre ++ printfTag) ext).data =
    pcIn.data ++ (dir.data ++ (pre.data ++ (printfTag.data ++ (ext.data ++
      (pcOutEq.data ++ (dir.data ++ (pre.data ++ (printfTag.data ++ (pcTrim.data ++
      (ext.data ++ pcRef.data)))))))))) from by
    simp [bbduk_single_cmd, pcIn, pcOutEq, pcTrim, pcRef, printfTag,
      String.data_append, List.append_assoc]]
  exact List.not_mem_append (by decide) (List.not_mem_append hd (List.not_mem_append hp
    (List.not_mem_append (by decide) (List.not_mem_append he
    (List.not_mem_append (by decide) (List.not_mem_append hd (List.not_mem_append hp
    (List.not_mem_append (by decide) (List.not_mem_append (by decide)
    (List.not_mem_append he (by decide)))))))))))

/-- Line decomposition of the paired bbduk script. -/
theorem bbduk_paired_lines (jn q m dir pre ext : String) (N n : Int)
    (hjn : '\n' ∉ jn.data) (hq : '\n' ∉ q.data) (hm : '\n' ∉ m.data)
    (hN : '\n' ∉ (toString N).data) (hn : '\n' ∉ (toString n).data)
    (hd : '\n' ∉ dir.data) (hp : '\n' ∉ pre.data) (he : '\n' ∉ ext.data) :
    splitNl (bbduk_script jn q N n m dir pre ext true).data =
      [pcShebang.data, pcQ.data ++ q.data, pcNodes.data ++ (toString N).data,
       pcTasks.data ++ (toString n).data, pcJob.data ++ jn.data, pcMem.data ++ m.data,
       pcOut.data ++ (jn.data ++ pcOutSuf.data), pcErr.data ++ (jn.data ++ pcErrSuf.data),
       [], pcModBB.data, [],
       (bbduk_paired_cmd (dir ++ pre ++ printfTag) ext).data, [], []] := by
  have hcmd := bbduk_paired_cmd_noNl dir pre ext hd hp he
  have hform : (bbduk_script jn q N n m dir pre ext true).data = pcShebang.data ++ (nlS.data ++ (pcQ.data ++ (q.data ++ (nlS.data ++ (pcNodes.data ++ ((toString N).data ++ (nlS.data ++ (pcTasks.data ++ ((toString n).data ++ (nlS.data ++ (pcJob.data ++ (jn.data ++ (nlS.data ++ (pcMem.data ++ (m.data ++ (nlS.data ++ (pcOut.data ++ (jn.data ++ (pcOutSuf.data ++ (nlS.data ++ (pcErr.data ++ (jn.data ++ (pcErrSuf.data ++ (nlS.data ++ (nlS.data ++ (pcModBB.data ++ (nlS.data ++ (nlS.data ++ ((bbduk_paired_cmd (dir ++ pre ++ printfTag) ext).data ++ (nlS.data ++ (nlS.data))))))))))))))))))))))))))))))) := by
    simp [bbduk_script, sbatchHeader, pcShebang, pcQ, pcNodes, pcTasks, pcJob, pcMem,
      pcOut, pcOutSuf, pcErr, pcErrSuf, pcModBB, nlS, String.data_append, List.append_assoc]
  rw [hform]
  simp only [splitNl_append _ (show '\n' ∉ pcShebang.data by decide),
    splitNl_append _ (show '\n' ∉ pcQ.data by decide),
    splitNl_append _ (show '\n' ∉ pcNodes.data by decide),
    splitNl_append _ (show '\n' ∉ pcTasks.data by decide),
    splitNl_append _ (show '\n' ∉ pcJob.data by decide),
    splitNl_append _ (show '\n' ∉ pcMem.data by decide),
    splitNl_append _ (show '\n' ∉ pcOut.data by decide),
    splitNl_append _ (show '\n' ∉ pcOutSuf.data by decide),
    splitNl_append _ (show '\n' ∉ pcErr.data by decide),
    splitNl_append _ (show '\n' ∉ pcErrSuf.data by decide),
    splitNl_append _ (show '\n' ∉ pcModBB.data by decide),
    splitNl_append _ hjn, splitNl_append _ hq, splitNl_append _ hm,
    splitNl_append _ hN, splitNl_append _ hn,
    splitNl_append _ hcmd,
    splitNl_nlS, splitNl_nlS_end, consHead, List.append_nil]

/-- Line decomposition of the single-end bbduk script. -/
theorem bbduk_single_lines (jn q m dir pre ext : String) (N n : Int)
    (hjn : '\n' ∉ jn.data) (hq : '\n' ∉ q.data) (hm : '\n' ∉ m.data)
    (hN : '\n' ∉ (toString N).data) (hn : '\n' ∉ (toString n).data)
    (hd : '\n' ∉ dir.data) (hp : '\n' ∉ pre.data) (he : '\n' ∉ ext.data) :
    splitNl (bbduk_script jn q N n m dir pre ext false).data =
      [pcShebang.data, pcQ.data ++ q.data, pcNodes.data ++ (toString N).data,
       pcTasks.data ++ (toString n).data, pcJob.data ++ jn.data, pcMem.data ++ m.data,
       pcOut.data ++ (jn.data ++ pcOutSuf.data), pcErr.data ++ (jn.data ++ pcErrSuf.data),
       [], pcModBB.data, [],
       (bbduk_single_cmd (dir ++ pre ++ printfTag) ext).data] := by
  have hcmd := bbduk_single_cmd_noNl dir pre ext hd hp he
  have hform : (bbduk_script jn q N n m dir pre ext false).data = pcShebang.data ++ (nlS.data ++ (pcQ.data ++ (q.data ++ (nlS.data ++ (pcNodes.data ++ ((toString N).data ++ (nlS.data ++ (pcTasks.data ++ ((toString n).data ++ (nlS.data ++ (pcJob.data ++ (jn.data ++ (nlS.data ++ (pcMem.data ++ (m.data ++ (nlS.data ++ (pcOut.data ++ (jn.data ++ (pcOutSuf.data ++ (nlS.data ++ (pcErr.data ++ (jn.data ++ (pcErrSuf.data ++ (nlS.data ++ (nlS.data ++ (pcModBB.data ++ (nlS.data ++ (nlS.data ++ ((bbduk_single_cmd (dir ++ pre ++ printfTag) ext).data))))))))))))))))))))))))))))) := by
    simp [bbduk_script, sbatchHeader, pcShebang, pcQ, pcNodes, pcTasks, pcJob, pcMem,
      pcOut, pcOutSuf, pcErr, pcErrSuf, pcModBB, nlS, String.data_append, List.append_assoc]
  rw [hform]
  simp only [splitNl_append _ (show '\n' ∉ pcShebang.data by decide),
    splitNl_append _ (show '\n' ∉ pcQ.data by decide),
    splitNl_append _ (show '\n' ∉ pcNodes.data by decide),
    splitNl_append _ (show '\n' ∉ pcTasks.data by decide),
    splitNl_append _ (show '\n' ∉ pcJob.data by decide),
    splitNl_append _ (show '\n' ∉ pcMem.data by decide),
    splitNl_append _ (show '\n' ∉ pcOut.data by decide),
    splitNl_append _ (show '\n' ∉ pcOutSuf.data by decide),
    splitNl_append _ (show '\n' ∉ pcErr.data by decide),
    splitNl_append _ (show '\n' ∉ pcErrSuf.data by decide),
    splitNl_append _ (show '\n' ∉ pcModBB.data by decide),
    splitNl_append _ hjn, splitNl_append _ hq, splitNl_append _ hm,
    splitNl_append _ hN, splitNl_append _ hn,
    splitNl_eq_single _ hcmd,
    splitNl_nlS, splitNl_nlS_end, splitNl_nil_eq, consHead, List.append_nil]

/-- The paired hisat2 invocation line, decomposed into template pieces. -/
theorem hisat2_paired_line_data (strand : Option String) (idx dir pre sfx add : String) :
    (hisat2_paired_line strand idx dir (pre ++ printfTag) sfx add).data = pcHisat.data ++ ((pyNoneStr strand).data ++ (pcX.data ++ (idx.data ++ (pcM1.data ++ (dir.data ++ (pre.data ++ (printfTag.data ++ (pcU1.data ++ (sfx.data ++ (pcM2.data ++ (dir.data ++ (pre.data ++ (printfTag.data ++ (pcU2.data ++ (sfx.data ++ (pcS.data ++ (pre.data ++ (printfTag.data ++ (pcSl.data ++ (pre.data ++ (printfTag.data ++ (pcSam.data ++ (pre.data ++ (printfTag.data ++ (pcSum.data ++ (add.data ++ (pcSp.data))))))))))))))))))))))))))) := by
  simp [hisat2_paired_line, pcHisat, pcX, pcM1, pcM2, pcU1, pcU2, pcS, pcSl, pcSam, pcSum,
    pcSp, printfTag, String.data_append, List.append_assoc]

/-- The single-end hisat2 invocation line, decomposed into template
pieces. -/
theorem hisat2_single_line_data (strand : Option String) (idx dir pre sfx add : String) :
    (hisat2_single_line strand idx dir (pre ++ printfTag) sfx add).data = pcHisat.data ++ ((pyNoneStr strand).data ++ (pcX.data ++ (idx.data ++ (pcU.data ++ (dir.data ++ (pre.data ++ (printfTag.data ++ (sfx.data ++ (pcS.data ++ (pre.data ++ (printfTag.data ++ (pcSl.data ++ (pre.data ++ (printfTag.data ++ (pcSam.data ++ (pre.data ++ (printfTag.data ++ (pcSum.data ++ (add.data))))))))))))))))))) := by
  simp [hisat2_single_line, pcHisat, pcX, pcU, pcS, pcSl, pcSam, pcSum, printfTag,
    String.data_append, List.append_assoc]

/-- Newline-freeness of the hisat2 invocation line in either mode. -/
theorem hisat2_line_noNl (strand : Option String) (paired : Bool)
    (idx dir pre sfx add : String) (hst : '\n' ∉ (pyNoneStr strand).data)
    (hi : '\n' ∉ idx.data) (hd : '\n' ∉ dir.data) (hp : '\n' ∉ pre.data)
    (hs : '\n' ∉ sfx.data) (ha : '\n' ∉ add.data) :
    '\n' ∉ (if paired then hisat2_paired_line strand idx dir (pre ++ printfTag) sfx add
      else hisat2_single_line strand idx dir (pre ++ printfTag) sfx add).data := by
  cases paired
  · rw [if_neg (by simp), hisat2_single_line_data]
    exact (List.not_mem_append (by decide) (List.not_mem_append hst (List.not_mem_append (by decide) (List.not_mem_append hi (List.not_mem_append (by decide) (List.not_mem_append hd (List.not_mem_append hp (List.not_mem_append (by decide) (List.not_mem_append hs (List.not_mem_append (by decide) (List.not_mem_append hp (List.not_mem_append (by decide) (List.not_mem_append (by decide) (List.not_mem_append hp (List.not_mem_append (by decide) (List.not_mem_append (by decide) (List.not_mem_append hp (List.not_mem_append (by decide) (List.not_mem_append (by decide) ha)))))))))))))))))))
  · rw [if_pos rfl, hisat2_paired_line_data]
    exact (List.not_mem_append (by decide) (List.not_mem_append hst (List.not_mem_append (by decide) (List.not_mem_append hi (List.not_mem_append (by decide) (List.not_mem_append hd (List.not_mem_append hp (List.not_mem_append (by decide) (List.not_mem_append (by decide) (List.not_mem_append hs (List.not_mem_append (by decide) (List.not_mem_append hd (List.not_mem_append hp (List.not_mem_append (by decide) (List.not_mem_append (by decide) (List.not_mem_append hs (List.not_mem_append (by decide) (List.not_mem_append hp (List.not_mem_append (by decide) (List.not_mem_append (by decide) (List.not_mem_append hp (List.not_mem_append (by decide) (List.not_mem_append (by decide) (List.not_mem_append hp (List.not_mem_append (by decide) (List.not_mem_append (by decide) (List.not_mem_append ha (by decide))))))))))))))))))))))))))))

/-- Line decomposition of the hisat2 script, for any mapped strandness
value and either mode. -/
theorem hisat2_lines (strand : Option String) (jn q m dir pre sfx idx add : String)
    (N n : Int) (paired : Bool)
    (hst : '\n' ∉ (pyNoneStr strand).data)
    (hjn : '\n' ∉ jn.data) (hq : '\n' ∉ q.data) (hm : '\n' ∉ m.data)
    (hN : '\n' ∉ (toString N).data) (hn : '\n' ∉ (toString n).data)
    (hd : '\n' ∉ dir.data) (hp : '\n' ∉ pre.data) (hs : '\n' ∉ sfx.data)
    (hi : '\n' ∉ idx.data) (ha : '\n' ∉ add.data) :
    splitNl (hisat2_script strand jn q N n m dir pre sfx idx add paired).data =
      [pcShebang.data, pcQ.data ++ q.data, pcNodes.data ++ (toString N).data,
       pcTasks.data ++ (toString n).data, pcJob.data ++ jn.data, pcMem.data ++ m.data,
       pcOut.data ++ (jn.data ++ pcOutSuf.data), pcErr.data ++ (jn.data ++ pcErrSuf.data),
       [], pcModH.data, pcModS.data, [],
       pcMkdir.data ++ (pre.data ++ (printfTag.data ++ pcSl.data)), [],
       (if paired then hisat2_paired_line strand idx dir (pre ++ printfTag) sfx add
        else hisat2_single_line strand idx dir (pre ++ printfTag) sfx add).data, [],
       pcView.data ++ (pre.data ++ (printfTag.data ++ (pcSl.data ++ (pre.data ++
         (printfTag.data ++ (pcSamO.data ++ (pre.data ++ (printfTag.data ++ (pcSl.data ++
         (pre.data ++ (printfTag.data ++ pcBam.data))))))))))), [],
       pcSort.data ++ (pre.data ++ (printfTag.data ++ (pcSl.data ++ (pre.data ++
         (printfTag.data ++ (pcBamO.data ++ (pre.data ++ (printfTag.data ++ (pcSl.data ++
         (pre.data ++ (printfTag.data ++ pcSorted.data))))))))))), [],
       pcRm.data ++ (pre.data ++ (printfTag.data ++ (pcSl.data ++ (pre.data ++
         (printfTag.data ++ pcSamE.data))))),
       pcRm.data ++ (pre.data ++ (printfTag.data ++ (pcSl.data ++ (pre.data ++
         (printfTag.data ++ pcBam.data))))), [], []] := by
  have hline := hisat2_line_noNl strand paired idx dir pre sfx add hst hi hd hp hs ha
  have hform : (hisat2_script strand jn q N n m dir pre sfx idx add paired).data =
      pcShebang.data ++ (nlS.data ++ (pcQ.data ++ (q.data ++ (nlS.data ++ (pcNodes.data ++ ((toString N).data ++ (nlS.data ++ (pcTasks.data ++ ((toString n).data ++ (nlS.data ++ (pcJob.data ++ (jn.data ++ (nlS.data ++ (pcMem.data ++ (m.data ++ (nlS.data ++ (pcOut.data ++ (jn.data ++ (pcOutSuf.data ++ (nlS.data ++ (pcErr.data ++ (jn.data ++ (pcErrSuf.data ++ (nlS.data ++ (nlS.data ++ (pcModH.data ++ (nlS.data ++ (pcModS.data ++ (nlS.data ++ (nlS.data ++ (pcMkdir.data ++ (pre.data ++ (printfTag.data ++ (pcSl.data ++ (nlS.data ++ (nlS.data ++ ((if paired then hisat2_paired_line strand idx dir (pre ++ printfTag) sfx add else hisat2_single_line strand idx dir (pre ++ printfTag) sfx add).data ++ (nlS.data ++ (nlS.data ++ (pcView.data ++ (pre.data ++ (printfTag.data ++ (pcSl.data ++ (pre.data ++ (printfTag.data ++ (pcSamO.data ++ (pre.data ++ (printfTag.data ++ (pcSl.data ++ (pre.data ++ (printfTag.data ++ (pcBam.data ++ (nlS.data ++ (nlS.data ++ (pcSort.data ++ (pre.data ++ (printfTag.data ++ (pcSl.data ++ (pre.data ++ (printfTag.data ++ (pcBamO.data ++ (pre.data ++ (printfTag.data ++ (pcSl.data ++ (pre.data ++ (printfTag.data ++ (pcSorted.data ++ (nlS.data ++ (nlS.data ++ (pcRm.data ++ (pre.data ++ (printfTag.data ++ (pcSl.data ++ (pre.data ++ (printfTag.data ++ (pcSamE.data ++ (nlS.data ++ (pcRm.data ++ (pre.data ++ (printfTag.data ++ (pcSl.data ++ (pre.data ++ (printfTag.data ++ (pcBam.data ++ (nlS.data ++ (nlS.data)))))))))))))))))))))))))))))))))))))))))))))))))))))))))))))))))))))))))))))))))))))) := by
    simp [hisat2_script, sbatchHeader, hisat2_samtools_part, pcShebang, pcQ, pcNodes,
      pcTasks, pcJob, pcMem, pcOut, pcOutSuf, pcErr, pcErrSuf, pcModH, pcModS, pcMkdir,
      pcSl, pcView, pcSamO, pcBam, pcSort, pcBamO, pcSorted, pcRm, pcSamE, nlS,
      String.data_append, List.append_assoc]
  rw [hform]
  simp only [splitNl_append _ (show '\n' ∉ pcShebang.data by decide),
    splitNl_append _ (show '\n' ∉ pcQ.data by decide),
    splitNl_append _ (show '\n' ∉ pcNodes.data by decide),
    splitNl_append _ (show '\n' ∉ pcTasks.data by decide),
    splitNl_append _ (show '\n' ∉ pcJob.data by decide),
    splitNl_append _ (show '\n' ∉ pcMem.data by decide),
    splitNl_append _ (show '\n' ∉ pcOut.data by decide),
    splitNl_append _ (show '\n' ∉ pcOutSuf.data by decide),
    splitNl_append _ (show '\n' ∉ pcErr.data by decide),
    splitNl_append _ (show '\n' ∉ pcErrSuf.data by decide),
    splitNl_append _ (show '\n' ∉ pcModH.data by decide),
    splitNl_append _ (show '\n' ∉ pcModS.data by decide),
    splitNl_append _ (show '\n' ∉ pcMkdir.data by decide),
    splitNl_append _ (show '\n' ∉ pcSl.data by decide),
    splitNl_append _ (show '\n' ∉ pcView.data by decide),
    splitNl_append _ (show '\n' ∉ pcSamO.data by decide),
    splitNl_append _ (show '\n' ∉ pcBam.data by decide),
    splitNl_append _ (show '\n' ∉ pcSort.data by decide),
    splitNl_append _ (show '\n' ∉ pcBamO.data by decide),
    splitNl_append _ (show '\n' ∉ pcSorted.data by decide),
    splitNl_append _ (show '\n' ∉ pcRm.data by decide),
    splitNl_append _ (show '\n' ∉ pcSamE.data by decide),
    splitNl_append _ (show '\n' ∉ printfTag.data by decide),
    splitNl_append _ hjn, splitNl_append _ hq, splitNl_append _ hm,
    splitNl_append _ hN, splitNl_append _ hn, splitNl_append _ hd,
    splitNl_append _ hp, splitNl_append _ hs, splitNl_append _ hi, splitNl_append _ ha,
    splitNl_append _ hline,
    splitNl_nlS, splitNl_nlS_end, consHead, List.append_nil]

/-- The paired bbduk command line, decomposed into template pieces. -/
theorem bbduk_paired_cmd_data (dir pre ext : String) :
    (bbduk_paired_cmd (dir ++ pre ++ printfTag) ext).data = pcIn1.data ++ (dir.data ++ (pre.data ++ (printfTag.data ++ (pcHashE.data ++ (ext.data ++ (pcOutEq.data ++ (dir.data ++ (pre.data ++ (printfTag.data ++ (pcHashTrim.data ++ (ext.data ++ (pcRef.data)))))))))))) := by
  simp [bbduk_paired_cmd, pcIn1, pcHashE, pcOutEq, pcHashTrim, pcRef,
    String.data_append, List.append_assoc]

/-- The single-end bbduk command line, decomposed into template pieces. -/
theorem bbduk_single_cmd_data (dir pre ext : String) :
    (bbduk_single_cmd (dir ++ pre ++ printfTag) ext).data = pcIn.data ++ (dir.data ++ (pre.data ++ (printfTag.data ++ (ext.data ++ (pcOutEq.data ++ (dir.data ++ (pre.data ++ (printfTag.data ++ (pcTrim.data ++ (ext.data ++ (pcRef.data))))))))))) := by
  simp [bbduk_single_cmd, pcIn, pcOutEq, pcTrim, pcRef,
    String.data_append, List.append_assoc]

/-- Exactly one line of the paired bbduk script starts with `bbduk.sh`,
namely its invocation line. -/
theorem bbduk_paired_filter (jn q m dir pre ext : String) (N n : Int)
    (hjn : '\n' ∉ jn.data) (hq : '\n' ∉ q.data) (hm : '\n' ∉ m.data)
    (hN : '\n' ∉ (toString N).data) (hn : '\n' ∉ (toString n).data)
    (hd : '\n' ∉ dir.data) (hp : '\n' ∉ pre.data) (he : '\n' ∉ ext.data) :
    (splitNl (bbduk_script jn q N n m dir pre ext true).data).filter
        (startsWithL "bbduk.sh") =
      [(bbduk_paired_cmd (dir ++ pre ++ printfTag) ext).data] := by
  rw [bbduk_paired_lines jn q m dir pre ext N n hjn hq hm hN hn hd hp he]
  have f2 : startsWithL "bbduk.sh" (pcQ.data ++ q.data) = false :=
    startsWithL_false_append _ pcQ _ (by decide) (by decide) (by decide)
  have f3 : startsWithL "bbduk.sh" (pcNodes.data ++ (toString N).data) = false :=
    startsWithL_false_append _ pcNodes _ (by decide) (by decide) (by decide)
  have f4 : startsWithL "bbduk.sh" (pcTasks.data ++ (toString n).data) = false :=
    startsWithL_false_append _ pcTasks _ (by decide) (by decide) (by decide)
  have f5 : startsWithL "bbduk.sh" (pcJob.data ++ jn.data) = false :=
    startsWithL_false_append _ pcJob _ (by decide) (by decide) (by decide)
  have f6 : startsWithL "bbduk.sh" (pcMem.data ++ m.data) = false :=
    startsWithL_false_append _ pcMem _ (by decide) (by decide) (by decide)
  have f7 : startsWithL "bbduk.sh" (pcOut.data ++ (jn.data ++ pcOutSuf.data)) = false :=
    startsWithL_false_append _ pcOut _ (by decide) (by decide) (by decide)
  have f8 : startsWithL "bbduk.sh" (pcErr.data ++ (jn.data ++ pcErrSuf.data)) = false :=
    startsWithL_false_append _ pcErr _ (by decide) (by decide) (by decide)
  have f12 : startsWithL "bbduk.sh" (bbduk_paired_cmd (dir ++ pre ++ printfTag) ext).data
      = true := by
    rw [bbduk_paired_cmd_data]
    exact startsWithL_true_append _ pcIn1 _ (by decide)
  simp [List.filter, f2, f3, f4, f5, f6, f7, f8, f12,
    show startsWithL "bbduk.sh" pcShebang.data = false by decide,
    show startsWithL "bbduk.sh" pcModBB.data = false by decide,
    show startsWithL "bbduk.sh" ([] : List Char) = false by decide]

/-- Exactly one line of the single-end bbduk script starts with
`bbduk.sh`, namely its invocation line. -/
theorem bbduk_single_filter (jn q m dir pre ext : String) (N n : Int)
    (hjn : '\n' ∉ jn.data) (hq : '\n' ∉ q.data) (hm : '\n' ∉ m.data)
    (hN : '\n' ∉ (toString N).data) (hn : '\n' ∉ (toString n).data)
    (hd : '\n' ∉ dir.data) (hp : '\n' ∉ pre.data) (he : '\n' ∉ ext.data) :
    (splitNl (bbduk_script jn q N n m dir pre ext false).data).filter
        (startsWithL "bbduk.sh") =
      [(bbduk_single_cmd (dir ++ pre ++ printfTag) ext).data] := by
  rw [bbduk_single_lines jn q m dir pre ext N n hjn hq hm hN hn hd hp he]
  have f2 : startsWithL "bbduk.sh" (pcQ.data ++ q.data) = false :=
    startsWithL_false_append _ pcQ _ (by decide) (by decide) (by decide)
  have f3 : startsWithL "bbduk.sh" (pcNodes.data ++ (toString N).data) = false :=
    startsWithL_false_append _ pcNodes _ (by decide) (by decide) (by decide)
  have f4 : startsWithL "bbduk.sh" (pcTasks.data ++ (toString n).data) = false :=
    startsWithL_false_append _ pcTasks _ (by decide) (by decide) (by decide)
  have f5 : startsWithL "bbduk.sh" (pcJob.data ++ jn.data) = false :=
    startsWithL_false_append _ pcJob _ (by decide) (by decide) (by decide)
  have f6 : startsWithL "bbduk.sh" (pcMem.data ++ m.data) = false :=
    startsWithL_false_append _ pcMem _ (by decide) (by decide) (by decide)
  have f7 : startsWithL "bbduk.sh" (pcOut.data ++ (jn.data ++ pcOutSuf.data)) = false :=
    startsWithL_false_append _ pcOut _ (by decide) (by decide) (by decide)
  have f8 : startsWithL "bbduk.sh" (pcErr.data ++ (jn.data ++ pcErrSuf.data)) = false :=
    startsWithL_false_append _ pcErr _ (by decide) (by decide) (by decide)
  have f12 : startsWithL "bbduk.sh" (bbduk_single_cmd (dir ++ pre ++ printfTag) ext).data
      = true := by
    rw [bbduk_single_cmd_data]
    exact startsWithL_true_append _ pcIn _ (by decide)
  simp [List.filter, f2, f3, f4, f5, f6, f7, f8, f12,
    show startsWithL "bbduk.sh" pcShebang.data = false by decide,
    show startsWithL "bbduk.sh" pcModBB.data = false by decide,
    show startsWithL "bbduk.sh" ([] : List Char) = false by decide]

/-- Exactly one line of the hisat2 script starts with `hisat2 `, namely
its invocation line (in either pairing mode, for any mapped strandness
value). -/
theorem hisat2_filter (strand : Option String) (jn q m dir pre sfx idx add : String)
    (N n : Int) (paired : Bool)
    (hst : '\n' ∉ (pyNoneStr strand).data)
    (hjn : '\n' ∉ jn.data) (hq : '\n' ∉ q.data) (hm : '\n' ∉ m.data)
    (hN : '\n' ∉ (toString N).data) (hn : '\n' ∉ (toString n).data)
    (hd : '\n' ∉ dir.data) (hp : '\n' ∉ pre.data) (hs : '\n' ∉ sfx.data)
    (hi : '\n' ∉ idx.data) (ha : '\n' ∉ add.data) :
    (splitNl (hisat2_script strand jn q N n m dir pre sfx idx add paired).data).filter
        (startsWithL "hisat2 ") =
      [(if paired then hisat2_paired_line strand idx dir (pre ++ printfTag) sfx add
        else hisat2_single_line strand idx dir (pre ++ printfTag) sfx add).data] := by
  rw [hisat2_lines strand jn q m dir pre sfx idx add N n paired hst hjn hq hm hN hn hd hp
    hs hi ha]
  have f2 : startsWithL "hisat2 " (pcQ.data ++ q.data) = false :=
    startsWithL_false_append _ pcQ _ (by decide) (by decide) (by decide)
  have f3 : startsWithL "hisat2 " (pcNodes.data ++ (toString N).data) = false :=
    startsWithL_false_append _ pcNodes _ (by decide) (by decide) (by decide)
  have f4 : startsWithL "hisat2 " (pcTasks.data ++ (toString n).data) = false :=
    startsWithL_false_append _ pcTasks _ (by decide) (by decide) (by decide)
  have f5 : startsWithL "hisat2 " (pcJob.data ++ jn.data) = false :=
    startsWithL_false_append _ pcJob _ (by decide) (by decide) (by decide)
  have f6 : startsWithL "hisat2 " (pcMem.data ++ m.data) = false :=
    startsWithL_false_append _ pcMem _ (by decide) (by decide) (by decide)
  have f7 : startsWithL "hisat2 " (pcOut.data ++ (jn.data ++ pcOutSuf.data)) = false :=
    startsWithL_false_append _ pcOut _ (by decide) (by decide) (by decide)
  have f8 : startsWithL "hisat2 " (pcErr.data ++ (jn.data ++ pcErrSuf.data)) = false :=
    startsWithL_false_append _ pcErr _ (by decide) (by decide) (by decide)
  have f13 : startsWithL "hisat2 "
      (pcMkdir.data ++ (pre.data ++ (printfTag.data ++ pcSl.data))) = false :=
    startsWithL_false_append _ pcMkdir _ (by decide) (by decide) (by decide)
  have f17 : startsWithL "hisat2 " (pcView.data ++ (pre.data ++ (printfTag.data ++
      (pcSl.data ++ (pre.data ++ (printfTag.data ++ (pcSamO.data ++ (pre.data ++
      (printfTag.data ++ (pcSl.data ++ (pre.data ++ (printfTag.data ++
      pcBam.data)))))))))))) = false :=
    startsWithL_false_append _ pcView _ (by decide) (by decide) (by decide)
  have f19 : startsWithL "hisat2 " (pcSort.data ++ (pre.data ++ (printfTag.data ++
      (pcSl.data ++ (pre.data ++ (printfTag.data ++ (pcBamO.data ++ (pre.data ++
      (printfTag.data ++ (pcSl.data ++ (pre.data ++ (printfTag.data ++
      pcSorted.data)))))))))))) = false :=
    startsWithL_false_append _ pcSort _ (by decide) (by decide) (by decide)
  have f21 : startsWithL "hisat2 " (pcRm.data ++ (pre.data ++ (printfTag.data ++
      (pcSl.data ++ (pre.data ++ (printfTag.data ++ pcSamE.data)))))) = false :=
    startsWithL_false_append _ pcRm _ (by decide) (by decide) (by decide)
  have f22 : startsWithL "hisat2 " (pcRm.data ++ (pre.data ++ (printfTag.data ++
      (pcSl.data ++ (pre.data ++ (printfTag.data ++ pcBam.data)))))) = false :=
    startsWithL_false_append _ pcRm _ (by decide) (by decide) (by decide)
  have fline : startsWithL "hisat2 "
      (if paired then hisat2_paired_line strand idx dir (pre ++ printfTag) sfx add
       else hisat2_single_line strand idx dir (pre ++ printfTag) sfx add).data = true := by
    cases paired
    · rw [if_neg (by simp), hisat2_single_line_data]
      exact startsWithL_true_append _ pcHisat _ (by decide)
    · rw [if_pos rfl, hisat2_paired_line_data]
      exact startsWithL_true_append _ pcHisat _ (by decide)
  simp [List.filter, f2, f3, f4, f5, f6, f7, f8, f13, f17, f19, f21, f22, fline,
    show startsWithL "hisat2 " pcShebang.data = false by decide,
    show startsWithL "hisat2 " pcModH.data = false by decide,
    show startsWithL "hisat2 " pcModS.data = false by decide,
    show startsWithL "hisat2 " ([] : List Char) = false by decide]

/-- The single-end bbduk command line carries no paired-specific flag: no
occurrence of `in1=` and no `#` mate wildcard, provided the directory,
prefix and extension contain neither `1` nor `#`. -/
theorem bbduk_single_no_paired_flags (dir pre ext : String)
    (hd1 : '1' ∉ dir.data) (hp1 : '1' ∉ pre.data) (he1 : '1' ∉ ext.data)
    (hdh : '#' ∉ dir.data) (hph : '#' ∉ pre.data) (heh : '#' ∉ ext.data) :
    ¬ ("in1=".data <:+: (bbduk_single_cmd (dir ++ pre ++ printfTag) ext).data) ∧
    '#' ∉ (bbduk_single_cmd (dir ++ pre ++ printfTag) ext).data := by
  rw [bbduk_single_cmd_data]
  constructor
  · refine not_infix_of_segOk "in1=" (show ('n', '1') ∈ adjPairs "in1=".data by decide) ?_
    exact (segOk_append (by decide) (segOk_append (segOk_of_not_mem hd1) (segOk_append (segOk_of_not_mem hp1) (segOk_append (by decide) (segOk_append (segOk_of_not_mem he1) (segOk_append (by decide) (segOk_append (segOk_of_not_mem hd1) (segOk_append (segOk_of_not_mem hp1) (segOk_append (by decide) (segOk_append (by decide) (segOk_append (segOk_of_not_mem he1) (by decide))))))))))))
  · exact (List.not_mem_append (by decide) (List.not_mem_append hdh (List.not_mem_append hph (List.not_mem_append (by decide) (List.not_mem_append heh (List.not_mem_append (by decide) (List.not_mem_append hdh (List.not_mem_append hph (List.not_mem_append (by decide) (List.not_mem_append (by decide) (List.not_mem_append heh (by decide))))))))))))

/-- The single-end hisat2 command line carries neither paired mate flag
`-1 ` nor `-2 `, provided the parameter strings contain neither `1` nor
`2`. -/
theorem hisat2_single_no_paired_flags (strand : Option String) (idx dir pre sfx add : String)
    (hst1 : '1' ∉ (pyNoneStr strand).data) (hstSeg : segOk '-' '2' (pyNoneStr strand).data)
    (hi1 : '1' ∉ idx.data) (hd1 : '1' ∉ dir.data) (hp1 : '1' ∉ pre.data)
    (hs1 : '1' ∉ sfx.data) (ha1 : '1' ∉ add.data)
    (hi2 : '2' ∉ idx.data) (hd2 : '2' ∉ dir.data) (hp2 : '2' ∉ pre.data)
    (hs2 : '2' ∉ sfx.data) (ha2 : '2' ∉ add.data) :
    ¬ ("-1 ".data <:+: (hisat2_single_line strand idx dir (pre ++ printfTag) sfx add).data) ∧
    ¬ ("-2 ".data <:+: (hisat2_single_line strand idx dir (pre ++ printfTag) sfx add).data) := by
  rw [hisat2_single_line_data]
  constructor
  · exact not_infix_of_not_mem "-1 " '1' (by decide) (List.not_mem_append (by decide) (List.not_mem_append hst1 (List.not_mem_append (by decide) (List.not_mem_append hi1 (List.not_mem_append (by decide) (List.not_mem_append hd1 (List.not_mem_append hp1 (List.not_mem_append (by decide) (List.not_mem_append hs1 (List.not_mem_append (by decide) (List.not_mem_append hp1 (List.not_mem_append (by decide) (List.not_mem_append (by decide) (List.not_mem_append hp1 (List.not_mem_append (by decide) (List.not_mem_append (by decide) (List.not_mem_append hp1 (List.not_mem_append (by decide) (List.not_mem_append (by decide) ha1)))))))))))))))))))
  · refine not_infix_of_segOk "-2 " (show ('-', '2') ∈ adjPairs "-2 ".data by decide) ?_
    exact (segOk_append (by decide) (segOk_append hstSeg (segOk_append (by decide) (segOk_append (segOk_of_not_mem hi2) (segOk_append (by decide) (segOk_append (segOk_of_not_mem hd2) (segOk_append (segOk_of_not_mem hp2) (segOk_append (by decide) (segOk_append (segOk_of_not_mem hs2) (segOk_append (by decide) (segOk_append (segOk_of_not_mem hp2) (segOk_append (by decide) (segOk_append (by decide) (segOk_append (segOk_of_not_mem hp2) (segOk_append (by decide) (segOk_append (by decide) (segOk_append (segOk_of_not_mem hp2) (segOk_append (by decide) (segOk_append (by decide) (segOk_of_not_mem ha2))))))))))))))))))))

/-- The paired bbduk script contains the fully substituted `in1=` mate
pattern. -/
theorem bbduk_paired_in1_chunk (jn q m dir pre ext : String) (N n : Int) :
    ("bbduk.sh in1=" ++ dir ++ pre ++ printfTag ++ "_#" ++ ext ++ " out=").data <:+:
      (bbduk_script jn q N n m dir pre ext true).data := by
  refine ⟨(sbatchHeader jn q N n m ++ "module load BBMap/38.94-Java-1.8.0_201\n\n").data,
    (dir ++ pre ++ printfTag ++ "_#.bbdtrim" ++ ext ++
      " ref=adapters k=23 ktrim=r mink=11 qtrim=r trimq=14 minlength=20 hdist=1\n\n").data,
    ?_⟩
  simp [bbduk_script, bbduk_paired_cmd, String.data_append, List.append_assoc]

/-- The paired bbduk script contains the fully substituted `out=` mate
pattern. -/
theorem bbduk_paired_out_chunk (jn q m dir pre ext : String) (N n : Int) :
    (" out=" ++ dir ++ pre ++ printfTag ++ "_#.bbdtrim" ++ ext ++ " ref=adapters").data <:+:
      (bbduk_script jn q N n m dir pre ext true).data := by
  refine ⟨(sbatchHeader jn q N n m ++ "module load BBMap/38.94-Java-1.8.0_201\n\n" ++
    "bbduk.sh in1=" ++ dir ++ pre ++ printfTag ++ "_#" ++ ext).data,
    (" k=23 ktrim=r mink=11 qtrim=r trimq=14 minlength=20 hdist=1\n\n").data, ?_⟩
  simp [bbduk_script, bbduk_paired_cmd, String.data_append, List.append_assoc]

/-- The single-end bbduk script contains the fully substituted `in=`
single-file pattern. -/
theorem bbduk_single_in_chunk (jn q m dir pre ext : String) (N n : Int) :
    ("bbduk.sh in=" ++ dir ++ pre ++ printfTag ++ ext ++ " out=").data <:+:
      (bbduk_script jn q N n m dir pre ext false).data := by
  refine ⟨(sbatchHeader jn q N n m ++ "module load BBMap/38.94-Java-1.8.0_201\n\n").data,
    (dir ++ pre ++ printfTag ++ ".bbdtrim" ++ ext ++
      " ref=adapters k=23 ktrim=r mink=11 qtrim=r trimq=14 minlength=20 hdist=1").data, ?_⟩
  simp [bbduk_script, bbduk_single_cmd, String.data_append, List.append_assoc]

/-- The paired hisat2 script contains both fully substituted mate-file
arguments, `-1` and `-2`, in sequence. -/
theorem hisat2_paired_mates (strand : Option String) (jn q m dir pre sfx idx add : String)
    (N n : Int) :
    (" -1 " ++ dir ++ (pre ++ printfTag) ++ "_1" ++ sfx ++ " -2 " ++ dir ++
      (pre ++ printfTag) ++ "_2" ++ sfx ++ " -S results/aligned_hisat/").data <:+:
      (hisat2_script strand jn q N n m dir pre sfx idx add true).data := by
  refine ⟨(sbatchHeader jn q N n m ++
    "module load HISAT2/2.2.1-IGB-gcc-8.2.0-Python-3.7.2 \nmodule load SAMtools/1.17-IGB-gcc-8.2.0\n\n" ++
    "mkdir results/aligned_hisat/" ++ (pre ++ printfTag) ++ "/\n\n" ++
    "hisat2 -q --phred33 --dta -t -p 4 " ++ pyNoneStr strand ++ " -x " ++ idx).data,
    ((pre ++ printfTag) ++ "/" ++ (pre ++ printfTag) ++
      ".sam --summary-file results/aligned_hisat/" ++ (pre ++ printfTag) ++
      "/summary.txt --new-summary " ++ add ++ " " ++ "\n\n" ++
      hisat2_samtools_part (pre ++ printfTag)).data, ?_⟩
  simp [hisat2_script, hisat2_paired_line, String.data_append, List.append_assoc]

/-- The single-end hisat2 script contains the fully substituted `-U`
single-file argument. -/
theorem hisat2_single_U_chunk (strand : Option String) (jn q m dir pre sfx idx add : String)
    (N n : Int) :
    (" -U " ++ dir ++ (pre ++ printfTag) ++ sfx ++ " -S results/aligned_hisat/").data <:+:
      (hisat2_script strand jn q N n m dir pre sfx idx add false).data := by
  refine ⟨(sbatchHeader jn q N n m ++
    "module load HISAT2/2.2.1-IGB-gcc-8.2.0-Python-3.7.2 \nmodule load SAMtools/1.17-IGB-gcc-8.2.0\n\n" ++
    "mkdir results/aligned_hisat/" ++ (pre ++ printfTag) ++ "/\n\n" ++
    "hisat2 -q --phred33 --dta -t -p 4 " ++ pyNoneStr strand ++ " -x " ++ idx).data,
    ((pre ++ printfTag) ++ "/" ++ (pre ++ printfTag) ++
      ".sam --summary-file results/aligned_hisat/" ++ (pre ++ printfTag) ++
      "/summary.txt --new-summary " ++ add ++ "\n\n" ++
      hisat2_samtools_part (pre ++ printfTag)).data, ?_⟩
  simp [hisat2_script, hisat2_single_line, String.data_append, List.append_assoc]

/-- C7: for well-formed parameters (newline-free, and — for the
single-end claims — free of the characters that the paired-specific flags
are made of), every rendered script has exactly one tool invocation line:
in paired mode it carries both fully substituted mate-file patterns, and
in single-end mode it carries the single-file pattern and none of the
paired-specific flags (`in1=`/`#` for bbduk, `-1 `/`-2 ` for hisat2). -/
theorem c7_tool_invocation_lines (fs : FS) (jn q m dirArg ndir pre ext sfx idx add
    strandP strandS : String) (N n : Int)
    (hnorm : normalizeDir dirArg = some ndir)
    (hjn : '\n' ∉ jn.data) (hq : '\n' ∉ q.data) (hm : '\n' ∉ m.data)
    (hN : '\n' ∉ (toString N).data) (hn : '\n' ∉ (toString n).data)
    (hdN : '\n' ∉ ndir.data) (hpN : '\n' ∉ pre.data) (heN : '\n' ∉ ext.data)
    (hsN : '\n' ∉ sfx.data) (hiN : '\n' ∉ idx.data) (haN : '\n' ∉ add.data)
    (hd1 : '1' ∉ ndir.data) (hp1 : '1' ∉ pre.data) (he1 : '1' ∉ ext.data)
    (hdh : '#' ∉ ndir.data) (hph : '#' ∉ pre.data) (heh : '#' ∉ ext.data)
    (hs1 : '1' ∉ sfx.data) (hi1 : '1' ∉ idx.data) (ha1 : '1' ∉ add.data)
    (hd2 : '2' ∉ ndir.data) (hp2 : '2' ∉ pre.data)
    (hs2 : '2' ∉ sfx.data) (hi2 : '2' ∉ idx.data) (ha2 : '2' ∉ add.data) :
    (∀ sc, bbduk_generate_slurm_script jn q N n m dirArg pre ext true = some sc →
      (splitNl sc.data).filter (startsWithL "bbduk.sh") =
        [(bbduk_paired_cmd (ndir ++ pre ++ printfTag) ext).data] ∧
      ("bbduk.sh in1=" ++ ndir ++ pre ++ printfTag ++ "_#" ++ ext ++ " out=").data <:+:
        sc.data ∧
      (" out=" ++ ndir ++ pre ++ printfTag ++ "_#.bbdtrim" ++ ext ++ " ref=adapters").data
        <:+: sc.data) ∧
    (∀ sc, bbduk_generate_slurm_script jn q N n m dirArg pre ext false = some sc →
      (splitNl sc.data).filter (startsWithL "bbduk.sh") =
        [(bbduk_single_cmd (ndir ++ pre ++ printfTag) ext).data] ∧
      ("bbduk.sh in=" ++ ndir ++ pre ++ printfTag ++ ext ++ " out=").data <:+: sc.data ∧
      ¬ ("in1=".data <:+: (bbduk_single_cmd (ndir ++ pre ++ printfTag) ext).data) ∧
      '#' ∉ (bbduk_single_cmd (ndir ++ pre ++ printfTag) ext).data) ∧
    (∀ pr mk sc, hisat2_generate_slurm_script fs jn q N n m dirArg pre sfx true idx
        strandP add = .ok pr mk sc →
      (splitNl sc.data).filter (startsWithL "hisat2 ") =
        [(hisat2_paired_line (hisat2StrandTokPaired strandP) idx ndir (pre ++ printfTag)
          sfx add).data] ∧
      (" -1 " ++ ndir ++ (pre ++ printfTag) ++ "_1" ++ sfx ++ " -2 " ++ ndir ++
        (pre ++ printfTag) ++ "_2" ++ sfx ++ " -S results/aligned_hisat/").data <:+:
        sc.data) ∧
    (∀ pr mk sc, hisat2_generate_slurm_script fs jn q N n m dirArg pre sfx false idx
        strandS add = .ok pr mk sc →
      (splitNl sc.data).filter (startsWithL "hisat2 ") =
        [(hisat2_single_line (hisat2StrandTokSingle strandS) idx ndir (pre ++ printfTag)
          sfx add).data] ∧
      (" -U " ++ ndir ++ (pre ++ printfTag) ++ sfx ++ " -S results/aligned_hisat/").data
        <:+: sc.data ∧
      ¬ ("-1 ".data <:+: (hisat2_single_line (hisat2StrandTokSingle strandS) idx ndir
        (pre ++ printfTag) sfx add).data) ∧
      ¬ ("-2 ".data <:+: (hisat2_single_line (hisat2StrandTokSingle strandS) idx ndir
        (pre ++ printfTag) sfx add).data)) := by
  refine ⟨?_, ?_, ?_, ?_⟩
  · intro sc h
    unfold bbduk_generate_slurm_script at h
    rw [hnorm] at h
    simp only [Option.map_some', Option.some.injEq] at h
    subst h
    exact ⟨bbduk_paired_filter jn q m ndir pre ext N n hjn hq hm hN hn hdN hpN heN,
      bbduk_paired_in1_chunk jn q m ndir pre ext N n,
      bbduk_paired_out_chunk jn q m ndir pre ext N n⟩
  · intro sc h
    unfold bbduk_generate_slurm_script at h
    rw [hnorm] at h
    simp only [Option.map_some', Option.some.injEq] at h
    subst h
    obtain ⟨hna, hnb⟩ := bbduk_single_no_paired_flags ndir pre ext hd1 hp1 he1 hdh hph heh
    exact ⟨bbduk_single_filter jn q m ndir pre ext N n hjn hq hm hN hn hdN hpN heN,
      bbduk_single_in_chunk jn q m ndir pre ext N n, hna, hnb⟩
  · intro pr mk sc h
    unfold hisat2_generate_slurm_script at h
    rw [hnorm] at h
    split at h
    · exact GenResult.noConfusion h
    · split at h
      · rename_i heqn
        exact Option.noConfusion heqn
      · rename_i dirv heqs
        injection heqs with heqs
        subst heqs
        split at h
        · split at h
          · rename_i hRF
            rw [GenResult.ok.injEq] at h
            obtain ⟨h1, h2, h3⟩ := h
            subst h3
            constructor
            · rw [hisat2_filter (some "--rna-strandness RF") jn q m ndir pre sfx idx add N n
                true (by decide) hjn hq hm hN hn hdN hpN hsN hiN haN]
              simp [hisat2StrandTokPaired, hRF]
            · exact hisat2_paired_mates (some "--rna-strandness RF") jn q m ndir pre sfx idx add N n
          · split at h
            · rename_i hRF hFR
              rw [GenResult.ok.injEq] at h
              obtain ⟨h1, h2, h3⟩ := h
              subst h3
              constructor
              · rw [hisat2_filter (some "--rna-strandness FR") jn q m ndir pre sfx idx add N n
                  true (by decide) hjn hq hm hN hn hdN hpN hsN hiN haN]
                simp [hisat2StrandTokPaired, hRF, hFR]
              · exact hisat2_paired_mates (some "--rna-strandness FR") jn q m ndir pre sfx idx add N n
            · split at h
              · rename_i hRF hFR hNU
                rw [GenResult.ok.injEq] at h
                obtain ⟨h1, h2, h3⟩ := h
                subst h3
                constructor
                · rw [hisat2_filter (none) jn q m ndir pre sfx idx add N n
                    true (by decide) hjn hq hm hN hn hdN hpN hsN hiN haN]
                  simp [hisat2StrandTokPaired, hRF, hFR]
                · exact hisat2_paired_mates (none) jn q m ndir pre sfx idx add N n
              · exact GenResult.noConfusion h
        · rename_i hcontra
          simp at hcontra
  · intro pr mk sc h
    unfold hisat2_generate_slurm_script at h
    rw [hnorm] at h
    split at h
    · exact GenResult.noConfusion h
    · split at h
      · rename_i heqn
        exact Option.noConfusion heqn
      · rename_i dirv heqs
        injection heqs with heqs
        subst heqs
        split at h
        · rename_i hcontra
          simp at hcontra
        · split at h
          · rename_i hR
            rw [GenResult.ok.injEq] at h
            obtain ⟨h1, h2, h3⟩ := h
            subst h3
            have htok : hisat2StrandTokSingle strandS = some "--rna-strandness R" := by
              simp [hisat2StrandTokSingle, hR]
            obtain ⟨hx1, hx2⟩ := hisat2_single_no_paired_flags (some "--rna-strandness R")
              idx ndir pre sfx add (by decide) (by decide) hi1 hd1 hp1 hs1 ha1 hi2 hd2
              hp2 hs2 ha2
            refine ⟨?_, hisat2_single_U_chunk (some "--rna-strandness R") jn q m ndir pre sfx idx add N n,
              ?_, ?_⟩
            · rw [hisat2_filter (some "--rna-strandness R") jn q m ndir pre sfx idx add N n
                false (by decide) hjn hq hm hN hn hdN hpN hsN hiN haN]
              simp [htok]
            · rw [htok]; exact hx1
            · rw [htok]; exact hx2
          · split at h
            · rename_i hR hF
              rw [GenResult.ok.injEq] at h
              obtain ⟨h1, h2, h3⟩ := h
              subst h3
              have htok : hisat2StrandTokSingle strandS = some "--rna-strandness F" := by
                simp [hisat2StrandTokSingle, hR, hF]
              obtain ⟨hx1, hx2⟩ := hisat2_single_no_paired_flags (some "--rna-strandness F")
                idx ndir pre sfx add (by decide) (by decide) hi1 hd1 hp1 hs1 ha1 hi2 hd2
                hp2 hs2 ha2
              refine ⟨?_, hisat2_single_U_chunk (some "--rna-strandness F") jn q m ndir pre sfx idx add N n,
                ?_, ?_⟩
              · rw [hisat2_filter (some "--rna-strandness F") jn q m ndir pre sfx idx add N n
                  false (by decide) hjn hq hm hN hn hdN hpN hsN hiN haN]
                simp [htok]
              · rw [htok]; exact hx1
              · rw [htok]; exact hx2
            · split at h
              · rename_i hR hF hNU
                rw [GenResult.ok.injEq] at h
                obtain ⟨h1, h2, h3⟩ := h
                subst h3
                have htok : hisat2StrandTokSingle strandS = none := by
                  simp [hisat2StrandTokSingle, hR, hF]
                obtain ⟨hx1, hx2⟩ := hisat2_single_no_paired_flags (none)
                  idx ndir pre sfx add (by decide) (by decide) hi1 hd1 hp1 hs1 ha1 hi2 hd2
                  hp2 hs2 ha2
                refine ⟨?_, hisat2_single_U_chunk (none) jn q m ndir pre sfx idx add N n,
                  ?_, ?_⟩
                · rw [hisat2_filter (none) jn q m ndir pre sfx idx add N n
                    false (by decide) hjn hq hm hN hn hdN hpN hsN hiN haN]
                  simp [htok]
                · rw [htok]; exact hx1
                · rw [htok]; exact hx2
              · exact GenResult.noConfusion h

/-- C7 witness: concrete well-formed parameters for all four modes. -/
theorem c7_tool_invocation_lines_witness :
    ((splitNl (bbduk_script "align" "lowmem" 1 4 "4GB" "/data/" "sample" ".fastq.gz"
        true).data).filter (startsWithL "bbduk.sh") =
      [(bbduk_paired_cmd ("/data/" ++ "sample" ++ printfTag) ".fastq.gz").data] ∧
      ("bbduk.sh in1=" ++ "/data/" ++ "sample" ++ printfTag ++ "_#" ++ ".fastq.gz" ++
        " out=").data <:+:
        (bbduk_script "align" "lowmem" 1 4 "4GB" "/data/" "sample" ".fastq.gz" true).data ∧
      (" out=" ++ "/data/" ++ "sample" ++ printfTag ++ "_#.bbdtrim" ++ ".fastq.gz" ++
        " ref=adapters").data <:+:
        (bbduk_script "align" "lowmem" 1 4 "4GB" "/data/" "sample" ".fastq.gz" true).data) ∧
    ((splitNl (bbduk_script "align" "lowmem" 1 4 "4GB" "/data/" "sample" ".fastq.gz"
        false).data).filter (startsWithL "bbduk.sh") =
      [(bbduk_single_cmd ("/data/" ++ "sample" ++ printfTag) ".fastq.gz").data] ∧
      ("bbduk.sh in=" ++ "/data/" ++ "sample" ++ printfTag ++ ".fastq.gz" ++ " out=").data
        <:+:
        (bbduk_script "align" "lowmem" 1 4 "4GB" "/data/" "sample" ".fastq.gz" false).data ∧
      ¬ ("in1=".data <:+:
        (bbduk_single_cmd ("/data/" ++ "sample" ++ printfTag) ".fastq.gz").data) ∧
      '#' ∉ (bbduk_single_cmd ("/data/" ++ "sample" ++ printfTag) ".fastq.gz").data) ∧
    ((splitNl (hisat2_script (some "--rna-strandness RF") "align" "lowmem" 1 4 "4GB"
        "/data/" "sample" ".bbdtrim.fastq.gz" "/ref/genome" "" true).data).filter
        (startsWithL "hisat2 ") =
      [(hisat2_paired_line (hisat2StrandTokPaired "rf") "/ref/genome" "/data/"
        ("sample" ++ printfTag) ".bbdtrim.fastq.gz" "").data] ∧
      (" -1 " ++ "/data/" ++ ("sample" ++ printfTag) ++ "_1" ++ ".bbdtrim.fastq.gz" ++
        " -2 " ++ "/data/" ++ ("sample" ++ printfTag) ++ "_2" ++ ".bbdtrim.fastq.gz" ++
        " -S results/aligned_hisat/").data <:+:
        (hisat2_script (some "--rna-strandness RF") "align" "lowmem" 1 4 "4GB" "/data/"
          "sample" ".bbdtrim.fastq.gz" "/ref/genome" "" true).data) ∧
    ((splitNl (hisat2_script none "align" "lowmem" 1 4 "4GB"
        "/data/" "sample" ".bbdtrim.fastq.gz" "/ref/genome" "" false).data).filter
        (startsWithL "hisat2 ") =
      [(hisat2_single_line (hisat2StrandTokSingle "unstranded") "/ref/genome" "/data/"
        ("sample" ++ printfTag) ".bbdtrim.fastq.gz" "").data] ∧
      (" -U " ++ "/data/" ++ ("sample" ++ printfTag) ++ ".bbdtrim.fastq.gz" ++
        " -S results/aligned_hisat/").data <:+:
        (hisat2_script none "align" "lowmem" 1 4 "4GB" "/data/" "sample"
          ".bbdtrim.fastq.gz" "/ref/genome" "" false).data ∧
      ¬ ("-1 ".data <:+: (hisat2_single_line (hisat2StrandTokSingle "unstranded")
        "/ref/genome" "/data/" ("sample" ++ printfTag) ".bbdtrim.fastq.gz" "").data) ∧
      ¬ ("-2 ".data <:+: (hisat2_single_line (hisat2StrandTokSingle "unstranded")
        "/ref/genome" "/data/" ("sample" ++ printfTag) ".bbdtrim.fastq.gz" "").data)) := by
  have T := c7_tool_invocation_lines ⟨["/ref/genome.1.ht2"], []⟩ "align" "lowmem" "4GB"
    "/data/" "/data/" "sample" ".fastq.gz" ".bbdtrim.fastq.gz" "/ref/genome" "" "rf"
    "unstranded" 1 4 (by decide) (by decide) (by decide) (by decide) (by decide)
    (by decide) (by decide) (by decide) (by decide) (by decide) (by decide) (by decide)
    (by decide) (by decide) (by decide) (by decide) (by decide) (by decide) (by decide)
    (by decide) (by decide) (by decide) (by decide) (by decide) (by decide) (by decide)
  exact ⟨T.1 _ rfl, T.2.1 _ rfl, T.2.2.1 _ _ _ rfl, T.2.2.2 _ _ _ rfl⟩
